import Mathlib

/-!
Shallow embedding of the internal VMM API client layer of ch-oxidase
(src/vmm/src/api/mod.rs): synchronous command-response IPC wrappers built
on an mpsc command queue plus an eventfd notification.

Modelling conventions:
* Payload types owned by other crates or modules (`VmConfig`, `VmState`,
  `VmError`, `DeviceConfig`, ...) are opaque placeholder structures; the
  API layer never inspects them, it only moves them.
* A `Sender<ApiResponse>` reply endpoint is modelled by the numeric
  identity of its channel.  The `channel()` call at wrapper entry is
  modelled by the `chanId` field of the `Transport` record: the identity
  of the fresh private reply channel of this one invocation.
* The outcomes that one invocation observes from its three fallible
  transport steps (queue send, eventfd write, reply receive) are the
  remaining fields of `Transport`.  A wrapper is a pure function of the
  transport outcomes and its payload argument, returning its `ApiResult`
  together with the ordered trace of transport events it performed.
* `api_evt.write(1)` is recorded in the trace as an `Event.evtWrite 1`
  event whether or not the write succeeds: the write is attempted (and
  observed by its outcome) either way.  A failed queue send records no
  `Event.enqueued` event, since the envelope never reaches the queue
  (Rust hands it back inside the `SendError`).
-/

namespace ChOxidase

/-- Placeholder for `crate::config::VmConfig`; the API layer treats it as
an opaque handle (`Arc<Mutex<VmConfig>>`) and never inspects it. -/
structure VmConfig where
  val : Nat

/-- Placeholder for `crate::vm::VmState`, the lifecycle-state snapshot
enum; copied out by value, never inspected here. -/
structure VmState where
  tag : Nat

/-- Placeholder for `crate::vm::Error` (`VmError`), the VM-engine error
wrapped verbatim by the domain kinds of `ApiError`. -/
structure VmError where
  code : Nat

/-- Placeholder for `std::io::Error` as produced by a failed
`EventFd::write`. -/
structure IoError where
  code : Nat

/-- Placeholder for `std::sync::mpsc::RecvError`, a unit struct. -/
structure RecvError where

/-- Placeholder for `crate::config::DeviceConfig`. -/
structure DeviceConfig where
  val : Nat

/-- Placeholder for `crate::config::DiskConfig`. -/
structure DiskConfig where
  val : Nat

/-- Placeholder for `crate::config::FsConfig`. -/
structure FsConfig where
  val : Nat

/-- Placeholder for `crate::config::PmemConfig`. -/
structure PmemConfig where
  val : Nat

/-- Placeholder for `crate::config::NetConfig`. -/
structure NetConfig where
  val : Nat

/-- Placeholder for `crate::config::VsockConfig`. -/
structure VsockConfig where
  val : Nat

/-- Identity of one reply channel (`Sender<ApiResponse>` /
`Receiver<ApiResponse>` pair created by `channel()`). -/
abbrev SenderId := Nat

/-- Embedding of `struct VmInfo` (mod.rs:121-124): the VM information
snapshot, a shared config handle plus a state enum value. -/
structure VmInfo where
  config : VmConfig
  state : VmState

/-- Embedding of `struct VmmPingResponse` (mod.rs:127-129). -/
structure VmmPingResponse where
  version : String

/-- Embedding of `struct VmRemoveDeviceData` (mod.rs:132-134). -/
structure VmRemoveDeviceData where
  id : String

/-- Embedding of `enum ApiResponsePayload` (mod.rs:136-145). -/
inductive ApiResponsePayload where
  | Empty
  | VmInfo (info : VmInfo)
  | VmmPing (pong : VmmPingResponse)

/-- Embedding of `enum ApiRequest` (mod.rs:151-210): the command envelope,
tagged by command kind, carrying an optional payload and the sending half
of the reply channel (modelled by its `SenderId`). -/
inductive ApiRequest where
  | VmCreate (config : VmConfig) (sender : SenderId)
  | VmBoot (sender : SenderId)
  | VmDelete (sender : SenderId)
  | VmInfo (sender : SenderId)
  | VmmPing (sender : SenderId)
  | VmShutdown (sender : SenderId)
  | VmReboot (sender : SenderId)
  | VmmShutdown (sender : SenderId)
  | VmAddDevice (data : DeviceConfig) (sender : SenderId)
  | VmRemoveDevice (data : VmRemoveDeviceData) (sender : SenderId)
  | VmAddDisk (data : DiskConfig) (sender : SenderId)
  | VmAddFs (data : FsConfig) (sender : SenderId)
  | VmAddPmem (data : PmemConfig) (sender : SenderId)
  | VmAddNet (data : NetConfig) (sender : SenderId)
  | VmAddVsock (data : VsockConfig) (sender : SenderId)

/-- Embedding of `std::sync::mpsc::SendError<A>`: a failed send hands the
unsent value back. -/
structure SendError (A : Type) where
  val : A

/-- Embedding of `enum ApiError` (mod.rs:51-117): four transport kinds
followed by the domain kinds, in source order. -/
inductive ApiError where
  | EventFdWrite (e : IoError)
  | RequestSend (e : SendError ApiRequest)
  | ResponsePayloadType
  | ResponseRecv (e : RecvError)
  | VmBoot (e : VmError)
  | VmAlreadyCreated
  | VmCreate (e : VmError)
  | VmDelete (e : VmError)
  | VmInfo (e : VmError)
  | VmMissingConfig
  | VmNotBooted
  | VmNotCreated
  | VmShutdown (e : VmError)
  | VmReboot (e : VmError)
  | VmmShutdown (e : VmError)
  | VmAddDevice (e : VmError)
  | VmRemoveDevice (e : VmError)
  | VmAddDisk (e : VmError)
  | VmAddFs (e : VmError)
  | VmAddPmem (e : VmError)
  | VmAddNet (e : VmError)
  | VmAddVsock (e : VmError)

/-- Embedding of `pub type ApiResult<T> = Result<T, ApiError>`
(mod.rs:118). -/
abbrev ApiResult (A : Type) := Except ApiError A

/-- Embedding of `pub type ApiResponse = Result<ApiResponsePayload,
ApiError>` (mod.rs:148). -/
abbrev ApiResponse := Except ApiError ApiResponsePayload

/-- Embedding of `enum VmAction` (mod.rs:233-245). -/
inductive VmAction where
  | Boot
  | Delete
  | Shutdown
  | Reboot

/-- Transport outcomes observed by one wrapper invocation: the identity of
the one fresh reply channel it creates, whether the queue send fails,
the outcome of `api_evt.write(1)`, and the outcome of
`response_receiver.recv()`. -/
structure Transport where
  chanId : Nat
  sendFails : Bool
  evtResult : Except IoError Unit
  recvResult : Except RecvError ApiResponse

/-- One observable transport action of a wrapper invocation, in the order
performed: an envelope appended to the command queue, a write of a value
to the API eventfd, or a blocking receive on a reply channel. -/
inductive Event where
  | enqueued (req : ApiRequest)
  | evtWrite (v : Nat)
  | recvWait (ch : Nat)

/-- Embedding of `pub fn vm_create` (mod.rs:212-228): create the reply
channel, send `ApiRequest::VmCreate(config, response_sender)`, write 1 to
the eventfd, receive, unwrap both layers of the response, discard the
payload, return `Ok(())`. -/
def vm_create (t : Transport) (config : VmConfig) :
    ApiResult Unit × List Event :=
  let response_sender := t.chanId
  let req := ApiRequest.VmCreate config response_sender
  if t.sendFails then
    (Except.error (ApiError.RequestSend ⟨req⟩), [])
  else
    match t.evtResult with
    | Except.error e =>
        (Except.error (ApiError.EventFdWrite e),
         [Event.enqueued req, Event.evtWrite 1])
    | Except.ok _ =>
        match t.recvResult with
        | Except.error e =>
            (Except.error (ApiError.ResponseRecv e),
             [Event.enqueued req, Event.evtWrite 1,
              Event.recvWait t.chanId])
        | Except.ok (Except.error e) =>
            (Except.error e,
             [Event.enqueued req, Event.evtWrite 1,
              Event.recvWait t.chanId])
        | Except.ok (Except.ok _) =>
            (Except.ok (),
             [Event.enqueued req, Event.evtWrite 1,
              Event.recvWait t.chanId])

/-- Embedding of `fn vm_action` (mod.rs:247-264): the shared routine for
boot, delete, shutdown and reboot; builds the envelope variant selected by
`action`, then runs the same send / write / receive / unwrap sequence. -/
def vm_action (t : Transport) (action : VmAction) :
    ApiResult Unit × List Event :=
  let response_sender := t.chanId
  let request :=
    match action with
    | VmAction.Boot => ApiRequest.VmBoot response_sender
    | VmAction.Delete => ApiRequest.VmDelete response_sender
    | VmAction.Shutdown => ApiRequest.VmShutdown response_sender
    | VmAction.Reboot => ApiRequest.VmReboot response_sender
  if t.sendFails then
    (Except.error (ApiError.RequestSend ⟨request⟩), [])
  else
    match t.evtResult with
    | Except.error e =>
        (Except.error (ApiError.EventFdWrite e),
         [Event.enqueued request, Event.evtWrite 1])
    | Except.ok _ =>
        match t.recvResult with
        | Except.error e =>
            (Except.error (ApiError.ResponseRecv e),
             [Event.enqueued request, Event.evtWrite 1,
              Event.recvWait t.chanId])
        | Except.ok (Except.error e) =>
            (Except.error e,
             [Event.enqueued request, Event.evtWrite 1,
              Event.recvWait t.chanId])
        | Except.ok (Except.ok _) =>
            (Except.ok (),
             [Event.enqueued request, Event.evtWrite 1,
              Event.recvWait t.chanId])

/-- Embedding of `pub fn vm_boot` (mod.rs:266-268). -/
def vm_boot (t : Transport) : ApiResult Unit × List Event :=
  vm_action t VmAction.Boot

/-- Embedding of `pub fn vm_delete` (mod.rs:270-272). -/
def vm_delete (t : Transport) : ApiResult Unit × List Event :=
  vm_action t VmAction.Delete

/-- Embedding of `pub fn vm_shutdown` (mod.rs:274-276). -/
def vm_shutdown (t : Transport) : ApiResult Unit × List Event :=
  vm_action t VmAction.Shutdown

/-- Embedding of `pub fn vm_reboot` (mod.rs:278-280). -/
def vm_reboot (t : Transport) : ApiResult Unit × List Event :=
  vm_action t VmAction.Reboot

/-- Embedding of `pub fn vm_info` (mod.rs:282-297): same transport
sequence, then match the successful payload, returning the `VmInfo` data
or `ApiError::ResponsePayloadType` on any other shape. -/
def vm_info (t : Transport) : ApiResult VmInfo × List Event :=
  let req := ApiRequest.VmInfo t.chanId
  if t.sendFails then
    (Except.error (ApiError.RequestSend ⟨req⟩), [])
  else
    match t.evtResult with
    | Except.error e =>
        (Except.error (ApiError.EventFdWrite e),
         [Event.enqueued req, Event.evtWrite 1])
    | Except.ok _ =>
        match t.recvResult with
        | Except.error e =>
            (Except.error (ApiError.ResponseRecv e),
             [Event.enqueued req, Event.evtWrite 1,
              Event.recvWait t.chanId])
        | Except.ok (Except.error e) =>
            (Except.error e,
             [Event.enqueued req, Event.evtWrite 1,
              Event.recvWait t.chanId])
        | Except.ok (Except.ok payload) =>
            (match payload with
             | ApiResponsePayload.VmInfo info => Except.ok info
             | _ => Except.error ApiError.ResponsePayloadType,
             [Event.enqueued req, Event.evtWrite 1,
              Event.recvWait t.chanId])

/-- Embedding of `pub fn vmm_ping` (mod.rs:299-313): same transport
sequence, then match the successful payload, returning the
`VmmPingResponse` or `ApiError::ResponsePayloadType` on any other
shape. -/
def vmm_ping (t : Transport) : ApiResult VmmPingResponse × List Event :=
  let req := ApiRequest.VmmPing t.chanId
  if t.sendFails then
    (Except.error (ApiError.RequestSend ⟨req⟩), [])
  else
    match t.evtResult with
    | Except.error e =>
        (Except.error (ApiError.EventFdWrite e),
         [Event.enqueued req, Event.evtWrite 1])
    | Except.ok _ =>
        match t.recvResult with
        | Except.error e =>
            (Except.error (ApiError.ResponseRecv e),
             [Event.enqueued req, Event.evtWrite 1,
              Event.recvWait t.chanId])
        | Except.ok (Except.error e) =>
            (Except.error e,
             [Event.enqueued req, Event.evtWrite 1,
              Event.recvWait t.chanId])
        | Except.ok (Except.ok payload) =>
            (match payload with
             | ApiResponsePayload.VmmPing pong => Except.ok pong
             | _ => Except.error ApiError.ResponsePayloadType,
             [Event.enqueued req, Event.evtWrite 1,
              Event.recvWait t.chanId])

/-- Embedding of `pub fn vmm_shutdown` (mod.rs:315-327). -/
def vmm_shutdown (t : Transport) : ApiResult Unit × List Event :=
  let req := ApiRequest.VmmShutdown t.chanId
  if t.sendFails then
    (Except.error (ApiError.RequestSend ⟨req⟩), [])
  else
    match t.evtResult with
    | Except.error e =>
        (Except.error (ApiError.EventFdWrite e),
         [Event.enqueued req, Event.evtWrite 1])
    | Except.ok _ =>
        match t.recvResult with
        | Except.error e =>
            (Except.error (ApiError.ResponseRecv e),
             [Event.enqueued req, Event.evtWrite 1,
              Event.recvWait t.chanId])
        | Except.ok (Except.error e) =>
            (Except.error e,
             [Event.enqueued req, Event.evtWrite 1,
              Event.recvWait t.chanId])
        | Except.ok (Except.ok _) =>
            (Except.ok (),
             [Event.enqueued req, Event.evtWrite 1,
              Event.recvWait t.chanId])

/-- Embedding of `pub fn vm_add_device` (mod.rs:329-345). -/
def vm_add_device (t : Transport) (data : DeviceConfig) :
    ApiResult Unit × List Event :=
  let req := ApiRequest.VmAddDevice data t.chanId
  if t.sendFails then
    (Except.error (ApiError.RequestSend ⟨req⟩), [])
  else
    match t.evtResult with
    | Except.error e =>
        (Except.error (ApiError.EventFdWrite e),
         [Event.enqueued req, Event.evtWrite 1])
    | Except.ok _ =>
        match t.recvResult with
        | Except.error e =>
            (Except.error (ApiError.ResponseRecv e),
             [Event.enqueued req, Event.evtWrite 1,
              Event.recvWait t.chanId])
        | Except.ok (Except.error e) =>
            (Except.error e,
             [Event.enqueued req, Event.evtWrite 1,
              Event.recvWait t.chanId])
        | Except.ok (Except.ok _) =>
            (Except.ok (),
             [Event.enqueued req, Event.evtWrite 1,
              Event.recvWait t.chanId])

/-- Embedding of `pub fn vm_remove_device` (mod.rs:347-363). -/
def vm_remove_device (t : Transport) (data : VmRemoveDeviceData) :
    ApiResult Unit × List Event :=
  let req := ApiRequest.VmRemoveDevice data t.chanId
  if t.sendFails then
    (Except.error (ApiError.RequestSend ⟨req⟩), [])
  else
    match t.evtResult with
    | Except.error e =>
        (Except.error (ApiError.EventFdWrite e),
         [Event.enqueued req, Event.evtWrite 1])
    | Except.ok _ =>
        match t.recvResult with
        | Except.error e =>
            (Except.error (ApiError.ResponseRecv e),
             [Event.enqueued req, Event.evtWrite 1,
              Event.recvWait t.chanId])
        | Except.ok (Except.error e) =>
            (Except.error e,
             [Event.enqueued req, Event.evtWrite 1,
              Event.recvWait t.chanId])
        | Except.ok (Except.ok _) =>
            (Except.ok (),
             [Event.enqueued req, Event.evtWrite 1,
              Event.recvWait t.chanId])

/-- Embedding of `pub fn vm_add_disk` (mod.rs:365-381). -/
def vm_add_disk (t : Transport) (data : DiskConfig) :
    ApiResult Unit × List Event :=
  let req := ApiRequest.VmAddDisk data t.chanId
  if t.sendFails then
    (Except.error (ApiError.RequestSend ⟨req⟩), [])
  else
    match t.evtResult with
    | Except.error e =>
        (Except.error (ApiError.EventFdWrite e),
         [Event.enqueued req, Event.evtWrite 1])
    | Except.ok _ =>
        match t.recvResult with
        | Except.error e =>
            (Except.error (ApiError.ResponseRecv e),
             [Event.enqueued req, Event.evtWrite 1,
              Event.recvWait t.chanId])
        | Except.ok (Except.error e) =>
            (Except.error e,
             [Event.enqueued req, Event.evtWrite 1,
              Event.recvWait t.chanId])
        | Except.ok (Except.ok _) =>
            (Except.ok (),
             [Event.enqueued req, Event.evtWrite 1,
              Event.recvWait t.chanId])

/-- Embedding of `pub fn vm_add_fs` (mod.rs:383-399). -/
def vm_add_fs (t : Transport) (data : FsConfig) :
    ApiResult Unit × List Event :=
  let req := ApiRequest.VmAddFs data t.chanId
  if t.sendFails then
    (Except.error (ApiError.RequestSend ⟨req⟩), [])
  else
    match t.evtResult with
    | Except.error e =>
        (Except.error (ApiError.EventFdWrite e),
         [Event.enqueued req, Event.evtWrite 1])
    | Except.ok _ =>
        match t.recvResult with
        | Except.error e =>
            (Except.error (ApiError.ResponseRecv e),
             [Event.enqueued req, Event.evtWrite 1,
              Event.recvWait t.chanId])
        | Except.ok (Except.error e) =>
            (Except.error e,
             [Event.enqueued req, Event.evtWrite 1,
              Event.recvWait t.chanId])
        | Except.ok (Except.ok _) =>
            (Except.ok (),
             [Event.enqueued req, Event.evtWrite 1,
              Event.recvWait t.chanId])

/-- Embedding of `pub fn vm_add_pmem` (mod.rs:401-417). -/
def vm_add_pmem (t : Transport) (data : PmemConfig) :
    ApiResult Unit × List Event :=
  let req := ApiRequest.VmAddPmem data t.chanId
  if t.sendFails then
    (Except.error (ApiError.RequestSend ⟨req⟩), [])
  else
    match t.evtResult with
    | Except.error e =>
        (Except.error (ApiError.EventFdWrite e),
         [Event.enqueued req, Event.evtWrite 1])
    | Except.ok _ =>
        match t.recvResult with
        | Except.error e =>
            (Except.error (ApiError.ResponseRecv e),
             [Event.enqueued req, Event.evtWrite 1,
              Event.recvWait t.chanId])
        | Except.ok (Except.error e) =>
            (Except.error e,
             [Event.enqueued req, Event.evtWrite 1,
              Event.recvWait t.chanId])
        | Except.ok (Except.ok _) =>
            (Except.ok (),
             [Event.enqueued req, Event.evtWrite 1,
              Event.recvWait t.chanId])

/-- Embedding of `pub fn vm_add_net` (mod.rs:419-435). -/
def vm_add_net (t : Transport) (data : NetConfig) :
    ApiResult Unit × List Event :=
  let req := ApiRequest.VmAddNet data t.chanId
  if t.sendFails then
    (Except.error (ApiError.RequestSend ⟨req⟩), [])
  else
    match t.evtResult with
    | Except.error e =>
        (Except.error (ApiError.EventFdWrite e),
         [Event.enqueued req, Event.evtWrite 1])
    | Except.ok _ =>
        match t.recvResult with
        | Except.error e =>
            (Except.error (ApiError.ResponseRecv e),
             [Event.enqueued req, Event.evtWrite 1,
              Event.recvWait t.chanId])
        | Except.ok (Except.error e) =>
            (Except.error e,
             [Event.enqueued req, Event.evtWrite 1,
              Event.recvWait t.chanId])
        | Except.ok (Except.ok _) =>
            (Except.ok (),
             [Event.enqueued req, Event.evtWrite 1,
              Event.recvWait t.chanId])

/-- Embedding of `pub fn vm_add_vsock` (mod.rs:437-453). -/
def vm_add_vsock (t : Transport) (data : VsockConfig) :
    ApiResult Unit × List Event :=
  let req := ApiRequest.VmAddVsock data t.chanId
  if t.sendFails then
    (Except.error (ApiError.RequestSend ⟨req⟩), [])
  else
    match t.evtResult with
    | Except.error e =>
        (Except.error (ApiError.EventFdWrite e),
         [Event.enqueued req, Event.evtWrite 1])
    | Except.ok _ =>
        match t.recvResult with
        | Except.error e =>
            (Except.error (ApiError.ResponseRecv e),
             [Event.enqueued req, Event.evtWrite 1,
              Event.recvWait t.chanId])
        | Except.ok (Except.error e) =>
            (Except.error e,
             [Event.enqueued req, Event.evtWrite 1,
              Event.recvWait t.chanId])
        | Except.ok (Except.ok _) =>
            (Except.ok (),
             [Event.enqueued req, Event.evtWrite 1,
              Event.recvWait t.chanId])

/-- Expected payload shape of the commands acknowledged by `Empty`: the
wrapper discards the successful payload and returns `Ok(())`. -/
def expectEmpty : ApiResponsePayload → ApiResult Unit :=
  fun _ => Except.ok ()

/-- Expected payload shape of `vm_info`: the `VmInfo` data, any other
shape being a payload-type mismatch. -/
def expectVmInfo : ApiResponsePayload → ApiResult VmInfo
  | ApiResponsePayload.VmInfo info => Except.ok info
  | _ => Except.error ApiError.ResponsePayloadType

/-- Expected payload shape of `vmm_ping`: the `VmmPingResponse`, any
other shape being a payload-type mismatch. -/
def expectVmmPing : ApiResponsePayload → ApiResult VmmPingResponse
  | ApiResponsePayload.VmmPing pong => Except.ok pong
  | _ => Except.error ApiError.ResponsePayloadType

/-- Envelope variant built by `vm_action` for each `VmAction`
(mod.rs:250-255). -/
def actionRequest (action : VmAction) (sender : SenderId) : ApiRequest :=
  match action with
  | VmAction.Boot => ApiRequest.VmBoot sender
  | VmAction.Delete => ApiRequest.VmDelete sender
  | VmAction.Shutdown => ApiRequest.VmShutdown sender
  | VmAction.Reboot => ApiRequest.VmReboot sender

/-- Uniform client call protocol of the specification (spec section 4.4),
with the only two per-command parameters: `build`, the envelope variant
built around the reply sender, and `extract`, the expected-payload-shape
step applied to a successfully received payload.  The seven steps: fresh
reply channel, build envelope, enqueue (else send-failed), signal (else
notify-write-failed), receive (else receive-failed), unwrap the inner
domain result, check the expected payload shape. -/
def specCall {A : Type} (t : Transport) (build : SenderId → ApiRequest)
    (extract : ApiResponsePayload → ApiResult A) :
    ApiResult A × List Event :=
  let sender := t.chanId
  let req := build sender
  if t.sendFails then
    (Except.error (ApiError.RequestSend ⟨req⟩), [])
  else
    match t.evtResult with
    | Except.error e =>
        (Except.error (ApiError.EventFdWrite e),
         [Event.enqueued req, Event.evtWrite 1])
    | Except.ok _ =>
        match t.recvResult with
        | Except.error e =>
            (Except.error (ApiError.ResponseRecv e),
             [Event.enqueued req, Event.evtWrite 1,
              Event.recvWait t.chanId])
        | Except.ok (Except.error e) =>
            (Except.error e,
             [Event.enqueued req, Event.evtWrite 1,
              Event.recvWait t.chanId])
        | Except.ok (Except.ok p) =>
            (extract p,
             [Event.enqueued req, Event.evtWrite 1,
              Event.recvWait t.chanId])

/-- Reply-sender identity carried by a command envelope. -/
def senderOf : ApiRequest → SenderId
  | ApiRequest.VmCreate _ s => s
  | ApiRequest.VmBoot s => s
  | ApiRequest.VmDelete s => s
  | ApiRequest.VmInfo s => s
  | ApiRequest.VmmPing s => s
  | ApiRequest.VmShutdown s => s
  | ApiRequest.VmReboot s => s
  | ApiRequest.VmmShutdown s => s
  | ApiRequest.VmAddDevice _ s => s
  | ApiRequest.VmRemoveDevice _ s => s
  | ApiRequest.VmAddDisk _ s => s
  | ApiRequest.VmAddFs _ s => s
  | ApiRequest.VmAddPmem _ s => s
  | ApiRequest.VmAddNet _ s => s
  | ApiRequest.VmAddVsock _ s => s

/-- Reply-sender identities of the envelopes enqueued in a trace. -/
def enqSenders (tr : List Event) : List SenderId :=
  tr.filterMap fun e =>
    match e with
    | Event.enqueued r => some (senderOf r)
    | _ => none

/-- Values written to the API eventfd in a trace, in order. -/
def evtWrites (tr : List Event) : List Nat :=
  tr.filterMap fun e =>
    match e with
    | Event.evtWrite v => some v
    | _ => none

/-- Channels on which a trace performs a blocking reply receive. -/
def recvChans (tr : List Event) : List Nat :=
  tr.filterMap fun e =>
    match e with
    | Event.recvWait c => some c
    | _ => none

/-- Shape tag test: is this payload of the VM-info shape? -/
def isVmInfoShape : ApiResponsePayload → Bool
  | ApiResponsePayload.VmInfo _ => true
  | _ => false

/-- Shape tag test: is this payload of the ping shape? -/
def isVmmPingShape : ApiResponsePayload → Bool
  | ApiResponsePayload.VmmPing _ => true
  | _ => false

/-- VM-engine error carried by an `ApiError`, when the kind carries
one (the `VmError`-wrapping domain kinds); `none` for the transport
kinds and for the four payload-less domain kinds. -/
def domainPayload : ApiError → Option VmError
  | ApiError.VmBoot e => some e
  | ApiError.VmCreate e => some e
  | ApiError.VmDelete e => some e
  | ApiError.VmInfo e => some e
  | ApiError.VmShutdown e => some e
  | ApiError.VmReboot e => some e
  | ApiError.VmmShutdown e => some e
  | ApiError.VmAddDevice e => some e
  | ApiError.VmRemoveDevice e => some e
  | ApiError.VmAddDisk e => some e
  | ApiError.VmAddFs e => some e
  | ApiError.VmAddPmem e => some e
  | ApiError.VmAddNet e => some e
  | ApiError.VmAddVsock e => some e
  | _ => none

/-- Queue-send outcome observed by one invocation for the envelope it
built: `Ok(())` on success, or the `SendError` handing the envelope back
on failure, as `std::sync::mpsc::Sender::send` reports it. -/
def sendObsOf (t : Transport) (req : ApiRequest) :
    Except (SendError ApiRequest) Unit :=
  if t.sendFails then Except.error ⟨req⟩ else Except.ok ()

/-- Each wrapper equals the uniform protocol at its envelope builder and
expected shape: `vm_create`. -/
theorem vm_create_eq_specCall (t : Transport) (config : VmConfig) :
    vm_create t config = specCall t (ApiRequest.VmCreate config) expectEmpty :=
  rfl

/-- Each wrapper equals the uniform protocol: `vm_action`. -/
theorem vm_action_eq_specCall (t : Transport) (action : VmAction) :
    vm_action t action = specCall t (actionRequest action) expectEmpty := by
  cases action <;> rfl

/-- Each wrapper equals the uniform protocol: `vm_boot`. -/
theorem vm_boot_eq_specCall (t : Transport) :
    vm_boot t = specCall t ApiRequest.VmBoot expectEmpty :=
  rfl

/-- Each wrapper equals the uniform protocol: `vm_delete`. -/
theorem vm_delete_eq_specCall (t : Transport) :
    vm_delete t = specCall t ApiRequest.VmDelete expectEmpty :=
  rfl

/-- Each wrapper equals the uniform protocol: `vm_shutdown`. -/
theorem vm_shutdown_eq_specCall (t : Transport) :
    vm_shutdown t = specCall t ApiRequest.VmShutdown expectEmpty :=
  rfl

/-- Each wrapper equals the uniform protocol: `vm_reboot`. -/
theorem vm_reboot_eq_specCall (t : Transport) :
    vm_reboot t = specCall t ApiRequest.VmReboot expectEmpty :=
  rfl

/-- Each wrapper equals the uniform protocol: `vm_info`. -/
theorem vm_info_eq_specCall (t : Transport) :
    vm_info t = specCall t ApiRequest.VmInfo expectVmInfo := by
  rcases t with ⟨ch, sf, evt, rv⟩
  cases sf
  case true => rfl
  case false =>
    cases evt
    case error e => rfl
    case ok u =>
      cases rv
      case error e => rfl
      case ok r =>
        cases r
        case error e => rfl
        case ok p => cases p <;> rfl

/-- Each wrapper equals the uniform protocol: `vmm_ping`. -/
theorem vmm_ping_eq_specCall (t : Transport) :
    vmm_ping t = specCall t ApiRequest.VmmPing expectVmmPing := by
  rcases t with ⟨ch, sf, evt, rv⟩
  cases sf
  case true => rfl
  case false =>
    cases evt
    case error e => rfl
    case ok u =>
      cases rv
      case error e => rfl
      case ok r =>
        cases r
        case error e => rfl
        case ok p => cases p <;> rfl

/-- Each wrapper equals the uniform protocol: `vmm_shutdown`. -/
theorem vmm_shutdown_eq_specCall (t : Transport) :
    vmm_shutdown t = specCall t ApiRequest.VmmShutdown expectEmpty :=
  rfl

/-- Each wrapper equals the uniform protocol: `vm_add_device`. -/
theorem vm_add_device_eq_specCall (t : Transport) (data : DeviceConfig) :
    vm_add_device t data =
      specCall t (ApiRequest.VmAddDevice data) expectEmpty :=
  rfl

/-- Each wrapper equals the uniform protocol: `vm_remove_device`. -/
theorem vm_remove_device_eq_specCall (t : Transport)
    (data : VmRemoveDeviceData) :
    vm_remove_device t data =
      specCall t (ApiRequest.VmRemoveDevice data) expectEmpty :=
  rfl

/-- Each wrapper equals the uniform protocol: `vm_add_disk`. -/
theorem vm_add_disk_eq_specCall (t : Transport) (data : DiskConfig) :
    vm_add_disk t data = specCall t (ApiRequest.VmAddDisk data) expectEmpty :=
  rfl

/-- Each wrapper equals the uniform protocol: `vm_add_fs`. -/
theorem vm_add_fs_eq_specCall (t : Transport) (data : FsConfig) :
    vm_add_fs t data = specCall t (ApiRequest.VmAddFs data) expectEmpty :=
  rfl

/-- Each wrapper equals the uniform protocol: `vm_add_pmem`. -/
theorem vm_add_pmem_eq_specCall (t : Transport) (data : PmemConfig) :
    vm_add_pmem t data = specCall t (ApiRequest.VmAddPmem data) expectEmpty :=
  rfl

/-- Each wrapper equals the uniform protocol: `vm_add_net`. -/
theorem vm_add_net_eq_specCall (t : Transport) (data : NetConfig) :
    vm_add_net t data = specCall t (ApiRequest.VmAddNet data) expectEmpty :=
  rfl

/-- Each wrapper equals the uniform protocol: `vm_add_vsock`. -/
theorem vm_add_vsock_eq_specCall (t : Transport) (data : VsockConfig) :
    vm_add_vsock t data =
      specCall t (ApiRequest.VmAddVsock data) expectEmpty :=
  rfl

/-- Behaviour of the uniform protocol when the queue send fails: the
send-failed error carrying the envelope back, and an empty trace (no
eventfd write, no enqueue, no receive). -/
theorem specCall_send_fail {A : Type} (t : Transport)
    (build : SenderId → ApiRequest) (extract : ApiResponsePayload → ApiResult A)
    (h : t.sendFails = true) :
    specCall t build extract =
      (Except.error (ApiError.RequestSend ⟨build t.chanId⟩), []) := by
  rcases t with ⟨ch, sf, evt, rv⟩
  cases h
  rfl

/-- Behaviour of the uniform protocol when the send succeeds but the
eventfd write fails: the notify-write-failed error, with the envelope
already enqueued and no receive performed. -/
theorem specCall_evt_fail {A : Type} (t : Transport)
    (build : SenderId → ApiRequest) (extract : ApiResponsePayload → ApiResult A)
    (e : IoError) (h1 : t.sendFails = false)
    (h2 : t.evtResult = Except.error e) :
    specCall t build extract =
      (Except.error (ApiError.EventFdWrite e),
       [Event.enqueued (build t.chanId), Event.evtWrite 1]) := by
  rcases t with ⟨ch, sf, evt, rv⟩
  cases h1
  cases h2
  rfl

/-- Behaviour of the uniform protocol when send and signal succeed but
the reply receive fails: the receive-failed error. -/
theorem specCall_recv_fail {A : Type} (t : Transport)
    (build : SenderId → ApiRequest) (extract : ApiResponsePayload → ApiResult A)
    (e : RecvError) (h1 : t.sendFails = false)
    (h2 : t.evtResult = Except.ok ()) (h3 : t.recvResult = Except.error e) :
    specCall t build extract =
      (Except.error (ApiError.ResponseRecv e),
       [Event.enqueued (build t.chanId), Event.evtWrite 1,
        Event.recvWait t.chanId]) := by
  rcases t with ⟨ch, sf, evt, rv⟩
  cases h1
  cases h2
  cases h3
  rfl

/-- Behaviour of the uniform protocol when the received response carries
an inner domain error: that error, propagated unchanged. -/
theorem specCall_inner_error {A : Type} (t : Transport)
    (build : SenderId → ApiRequest) (extract : ApiResponsePayload → ApiResult A)
    (e : ApiError) (h1 : t.sendFails = false)
    (h2 : t.evtResult = Except.ok ())
    (h3 : t.recvResult = Except.ok (Except.error e)) :
    specCall t build extract =
      (Except.error e,
       [Event.enqueued (build t.chanId), Event.evtWrite 1,
        Event.recvWait t.chanId]) := by
  rcases t with ⟨ch, sf, evt, rv⟩
  cases h1
  cases h2
  cases h3
  rfl

/-- Behaviour of the uniform protocol when the received response carries
a successful payload: the expected-shape step applied to that payload. -/
theorem specCall_payload {A : Type} (t : Transport)
    (build : SenderId → ApiRequest) (extract : ApiResponsePayload → ApiResult A)
    (p : ApiResponsePayload) (h1 : t.sendFails = false)
    (h2 : t.evtResult = Except.ok ())
    (h3 : t.recvResult = Except.ok (Except.ok p)) :
    specCall t build extract =
      (extract p,
       [Event.enqueued (build t.chanId), Event.evtWrite 1,
        Event.recvWait t.chanId]) := by
  rcases t with ⟨ch, sf, evt, rv⟩
  cases h1
  cases h2
  cases h3
  rfl

/-- The trace of one protocol run is one of three shapes: nothing, an
enqueue then one eventfd write, or an enqueue then one eventfd write then
one reply receive on the private channel. -/
theorem specCall_trace_cases {A : Type} (t : Transport)
    (build : SenderId → ApiRequest)
    (extract : ApiResponsePayload → ApiResult A) :
    (specCall t build extract).2 = [] ∨
    (specCall t build extract).2 =
      [Event.enqueued (build t.chanId), Event.evtWrite 1] ∨
    (specCall t build extract).2 =
      [Event.enqueued (build t.chanId), Event.evtWrite 1,
       Event.recvWait t.chanId] := by
  rcases t with ⟨ch, sf, evt, rv⟩
  cases sf
  case true => exact Or.inl rfl
  case false =>
    cases evt
    case error e => exact Or.inr (Or.inl rfl)
    case ok u =>
      cases rv
      case error e => exact Or.inr (Or.inr rfl)
      case ok r =>
        cases r
        case error e => exact Or.inr (Or.inr rfl)
        case ok p => exact Or.inr (Or.inr rfl)

/-- A payload that is not of the VM-info shape fails the `vm_info`
expected-shape step with the payload-type-mismatch error. -/
theorem expectVmInfo_not_shape (p : ApiResponsePayload)
    (h : isVmInfoShape p = false) :
    expectVmInfo p = Except.error ApiError.ResponsePayloadType := by
  cases p
  case Empty => rfl
  case VmInfo info => exact Bool.noConfusion h
  case VmmPing pong => rfl

/-- A payload that is not of the ping shape fails the `vmm_ping`
expected-shape step with the payload-type-mismatch error. -/
theorem expectVmmPing_not_shape (p : ApiResponsePayload)
    (h : isVmmPingShape p = false) :
    expectVmmPing p = Except.error ApiError.ResponsePayloadType := by
  cases p
  case Empty => rfl
  case VmInfo info => rfl
  case VmmPing pong => exact Bool.noConfusion h

/-- The envelope built by `vm_action` carries exactly the reply sender it
was given. -/
theorem senderOf_actionRequest (action : VmAction) (s : SenderId) :
    senderOf (actionRequest action s) = s := by
  cases action <;> rfl

/-- The first component of a protocol run is a function of the payload,
the observed queue-send result (which hands the envelope back on
failure), the observed eventfd-write result and the received response;
in particular two runs agreeing on those observations return the same
result even if their private reply channels differ. -/
theorem specCall_fst_deterministic {A : Type} (t t2 : Transport)
    (build : SenderId → ApiRequest)
    (extract : ApiResponsePayload → ApiResult A)
    (hs : sendObsOf t (build t.chanId) = sendObsOf t2 (build t2.chanId))
    (he : t.evtResult = t2.evtResult) (hr : t.recvResult = t2.recvResult) :
    (specCall t build extract).1 = (specCall t2 build extract).1 := by
  rcases t with ⟨ch, sf, evt, rv⟩
  rcases t2 with ⟨ch2, sf2, evt2, rv2⟩
  have he2 : evt = evt2 := he
  have hr2 : rv = rv2 := hr
  subst he2
  subst hr2
  cases sf
  case false =>
    cases sf2
    case false =>
      cases evt
      case error e => rfl
      case ok u =>
        cases rv
        case error e => rfl
        case ok r =>
          cases r
          case error e => rfl
          case ok p => rfl
    case true => exact absurd hs (by simp [sendObsOf])
  case true =>
    cases sf2
    case false => exact absurd hs (by simp [sendObsOf])
    case true =>
      have hb : build ch = build ch2 := by
        simpa [sendObsOf] using hs
      simp [specCall, hb]

/-- A protocol run performs at most one blocking reply receive, and only
on its own private channel. -/
theorem specCall_recvChans {A : Type} (t : Transport)
    (build : SenderId → ApiRequest)
    (extract : ApiResponsePayload → ApiResult A) :
    recvChans (specCall t build extract).2 = [] ∨
    recvChans (specCall t build extract).2 = [t.chanId] := by
  rcases specCall_trace_cases t build extract with h | h | h <;> rw [h]
  · exact Or.inl rfl
  · exact Or.inl rfl
  · exact Or.inr rfl

/-- A protocol run enqueues at most one envelope, and that envelope
carries the run's own fresh reply sender. -/
theorem specCall_enqSenders {A : Type} (t : Transport)
    (build : SenderId → ApiRequest)
    (extract : ApiResponsePayload → ApiResult A)
    (hb : senderOf (build t.chanId) = t.chanId) :
    enqSenders (specCall t build extract).2 = [] ∨
    enqSenders (specCall t build extract).2 = [t.chanId] := by
  rcases specCall_trace_cases t build extract with h | h | h <;> rw [h]
  · exact Or.inl rfl
  · exact Or.inr (show [senderOf (build t.chanId)] = [t.chanId] from by
      rw [hb])
  · exact Or.inr (show [senderOf (build t.chanId)] = [t.chanId] from by
      rw [hb])

/-- A protocol run whose queue send fails performs no eventfd write. -/
theorem specCall_evtWrites_send_fail {A : Type} (t : Transport)
    (build : SenderId → ApiRequest)
    (extract : ApiResponsePayload → ApiResult A)
    (h : t.sendFails = true) :
    evtWrites (specCall t build extract).2 = [] := by
  rw [specCall_send_fail t build extract h]
  rfl

/-- A protocol run whose queue send succeeds performs exactly one eventfd
write, of the value 1, and its first transport action is the enqueue. -/
theorem specCall_evtWrites_send_ok {A : Type} (t : Transport)
    (build : SenderId → ApiRequest)
    (extract : ApiResponsePayload → ApiResult A)
    (h : t.sendFails = false) :
    evtWrites (specCall t build extract).2 = [1] ∧
    (specCall t build extract).2.head? =
      some (Event.enqueued (build t.chanId)) := by
  rcases t with ⟨ch, sf, evt, rv⟩
  cases h
  cases evt
  case error e => exact ⟨rfl, rfl⟩
  case ok u =>
    cases rv
    case error e => exact ⟨rfl, rfl⟩
    case ok r =>
      cases r
      case error e => exact ⟨rfl, rfl⟩
      case ok p => exact ⟨rfl, rfl⟩

/-- A protocol run performs at most one reply receive. -/
theorem specCall_recv_once {A : Type} (t : Transport)
    (build : SenderId → ApiRequest)
    (extract : ApiResponsePayload → ApiResult A) :
    (recvChans (specCall t build extract).2).length ≤ 1 := by
  rcases specCall_recvChans t build extract with h | h <;> rw [h] <;> simp

/-- C1 counterexample: `vm_create`, fed a successfully received payload
of the ping shape (not the `Empty` shape the command expects), returns
`Ok(())` and not the payload-type-mismatch error: the `Empty`-expecting
wrappers discard the successful payload without any shape check
(mod.rs:225-227), so the claim as stated fails on them. -/
theorem C1_counterexample :
    (vm_create
        ⟨7, false, Except.ok (),
         Except.ok (Except.ok
           (ApiResponsePayload.VmmPing ⟨"1.0.0"⟩))⟩ ⟨0⟩).1 =
      Except.ok () ∧
    (vm_create
        ⟨7, false, Except.ok (),
         Except.ok (Except.ok
           (ApiResponsePayload.VmmPing ⟨"1.0.0"⟩))⟩ ⟨0⟩).1 ≠
      Except.error ApiError.ResponsePayloadType :=
  ⟨rfl, fun h => Except.noConfusion h⟩

/-- C1 (amended): only `vm_info` and `vmm_ping` perform the
payload-shape check: each returns `ApiError.ResponsePayloadType` when the
successfully received payload is not of its expected shape; every
`Empty`-expecting wrapper discards the successful payload and returns
`Ok(())` whatever its shape. -/
theorem C1_shape_check_amended :
    (∀ t p, t.sendFails = false → t.evtResult = Except.ok () →
      t.recvResult = Except.ok (Except.ok p) → isVmInfoShape p = false →
      (vm_info t).1 = Except.error ApiError.ResponsePayloadType) ∧
    (∀ t p, t.sendFails = false → t.evtResult = Except.ok () →
      t.recvResult = Except.ok (Except.ok p) → isVmmPingShape p = false →
      (vmm_ping t).1 = Except.error ApiError.ResponsePayloadType) ∧
    (∀ t config p, t.sendFails = false → t.evtResult = Except.ok () →
      t.recvResult = Except.ok (Except.ok p) →
      (vm_create t config).1 = Except.ok ()) ∧
    (∀ t action p, t.sendFails = false → t.evtResult = Except.ok () →
      t.recvResult = Except.ok (Except.ok p) →
      (vm_action t action).1 = Except.ok ()) ∧
    (∀ t p, t.sendFails = false → t.evtResult = Except.ok () →
      t.recvResult = Except.ok (Except.ok p) →
      (vm_boot t).1 = Except.ok ()) ∧
    (∀ t p, t.sendFails = false → t.evtResult = Except.ok () →
      t.recvResult = Except.ok (Except.ok p) →
      (vm_delete t).1 = Except.ok ()) ∧
    (∀ t p, t.sendFails = false → t.evtResult = Except.ok () →
      t.recvResult = Except.ok (Except.ok p) →
      (vm_shutdown t).1 = Except.ok ()) ∧
    (∀ t p, t.sendFails = false → t.evtResult = Except.ok () →
      t.recvResult = Except.ok (Except.ok p) →
      (vm_reboot t).1 = Except.ok ()) ∧
    (∀ t p, t.sendFails = false → t.evtResult = Except.ok () →
      t.recvResult = Except.ok (Except.ok p) →
      (vmm_shutdown t).1 = Except.ok ()) ∧
    (∀ t data p, t.sendFails = false → t.evtResult = Except.ok () →
      t.recvResult = Except.ok (Except.ok p) →
      (vm_add_device t data).1 = Except.ok ()) ∧
    (∀ t data p, t.sendFails = false → t.evtResult = Except.ok () →
      t.recvResult = Except.ok (Except.ok p) →
      (vm_remove_device t data).1 = Except.ok ()) ∧
    (∀ t data p, t.sendFails = false → t.evtResult = Except.ok () →
      t.recvResult = Except.ok (Except.ok p) →
      (vm_add_disk t data).1 = Except.ok ()) ∧
    (∀ t data p, t.sendFails = false → t.evtResult = Except.ok () →
      t.recvResult = Except.ok (Except.ok p) →
      (vm_add_fs t data).1 = Except.ok ()) ∧
    (∀ t data p, t.sendFails = false → t.evtResult = Except.ok () →
      t.recvResult = Except.ok (Except.ok p) →
      (vm_add_pmem t data).1 = Except.ok ()) ∧
    (∀ t data p, t.sendFails = false → t.evtResult = Except.ok () →
      t.recvResult = Except.ok (Except.ok p) →
      (vm_add_net t data).1 = Except.ok ()) ∧
    (∀ t data p, t.sendFails = false → t.evtResult = Except.ok () →
      t.recvResult = Except.ok (Except.ok p) →
      (vm_add_vsock t data).1 = Except.ok ()) :=
  ⟨fun t p h1 h2 h3 h4 => by
      rw [vm_info_eq_specCall, specCall_payload _ _ _ _ h1 h2 h3]
      exact expectVmInfo_not_shape p h4,
   fun t p h1 h2 h3 h4 => by
      rw [vmm_ping_eq_specCall, specCall_payload _ _ _ _ h1 h2 h3]
      exact expectVmmPing_not_shape p h4,
   fun t config p h1 h2 h3 => by
      rw [vm_create_eq_specCall, specCall_payload _ _ _ _ h1 h2 h3]
      rfl,
   fun t action p h1 h2 h3 => by
      rw [vm_action_eq_specCall, specCall_payload _ _ _ _ h1 h2 h3]
      rfl,
   fun t p h1 h2 h3 => by
      rw [vm_boot_eq_specCall, specCall_payload _ _ _ _ h1 h2 h3]
      rfl,
   fun t p h1 h2 h3 => by
      rw [vm_delete_eq_specCall, specCall_payload _ _ _ _ h1 h2 h3]
      rfl,
   fun t p h1 h2 h3 => by
      rw [vm_shutdown_eq_specCall, specCall_payload _ _ _ _ h1 h2 h3]
      rfl,
   fun t p h1 h2 h3 => by
      rw [vm_reboot_eq_specCall, specCall_payload _ _ _ _ h1 h2 h3]
      rfl,
   fun t p h1 h2 h3 => by
      rw [vmm_shutdown_eq_specCall, specCall_payload _ _ _ _ h1 h2 h3]
      rfl,
   fun t data p h1 h2 h3 => by
      rw [vm_add_device_eq_specCall, specCall_payload _ _ _ _ h1 h2 h3]
      rfl,
   fun t data p h1 h2 h3 => by
      rw [vm_remove_device_eq_specCall, specCall_payload _ _ _ _ h1 h2 h3]
      rfl,
   fun t data p h1 h2 h3 => by
      rw [vm_add_disk_eq_specCall, specCall_payload _ _ _ _ h1 h2 h3]
      rfl,
   fun t data p h1 h2 h3 => by
      rw [vm_add_fs_eq_specCall, specCall_payload _ _ _ _ h1 h2 h3]
      rfl,
   fun t data p h1 h2 h3 => by
      rw [vm_add_pmem_eq_specCall, specCall_payload _ _ _ _ h1 h2 h3]
      rfl,
   fun t data p h1 h2 h3 => by
      rw [vm_add_net_eq_specCall, specCall_payload _ _ _ _ h1 h2 h3]
      rfl,
   fun t data p h1 h2 h3 => by
      rw [vm_add_vsock_eq_specCall, specCall_payload _ _ _ _ h1 h2 h3]
      rfl⟩

/-- C1 witness: the amended claim evaluated at concrete inputs: `vm_info`
receiving an `Empty` payload observes the payload-type mismatch, while
`vm_create` receiving a VM-info payload silently succeeds. -/
theorem C1_shape_check_amended_witness :
    (vm_info
        ⟨11, false, Except.ok (),
         Except.ok (Except.ok ApiResponsePayload.Empty)⟩).1 =
      Except.error ApiError.ResponsePayloadType ∧
    (vm_create
        ⟨12, false, Except.ok (),
         Except.ok (Except.ok
           (ApiResponsePayload.VmInfo ⟨⟨1⟩, ⟨2⟩⟩))⟩ ⟨0⟩).1 =
      Except.ok () :=
  ⟨C1_shape_check_amended.1 _ _ rfl rfl rfl rfl,
   C1_shape_check_amended.2.2.1 _ _ _ rfl rfl rfl⟩

/-- C3: every wrapper is a transparent conduit for an inner domain error:
when the received response carries `Err(e)`, the wrapper returns exactly
that `ApiError` value unchanged. -/
theorem C3_domain_error_passthrough :
    (∀ t config e, t.sendFails = false → t.evtResult = Except.ok () →
      t.recvResult = Except.ok (Except.error e) →
      (vm_create t config).1 = Except.error e) ∧
    (∀ t action e, t.sendFails = false → t.evtResult = Except.ok () →
      t.recvResult = Except.ok (Except.error e) →
      (vm_action t action).1 = Except.error e) ∧
    (∀ t e, t.sendFails = false → t.evtResult = Except.ok () →
      t.recvResult = Except.ok (Except.error e) →
      (vm_boot t).1 = Except.error e) ∧
    (∀ t e, t.sendFails = false → t.evtResult = Except.ok () →
      t.recvResult = Except.ok (Except.error e) →
      (vm_delete t).1 = Except.error e) ∧
    (∀ t e, t.sendFails = false → t.evtResult = Except.ok () →
      t.recvResult = Except.ok (Except.error e) →
      (vm_shutdown t).1 = Except.error e) ∧
    (∀ t e, t.sendFails = false → t.evtResult = Except.ok () →
      t.recvResult = Except.ok (Except.error e) →
      (vm_reboot t).1 = Except.error e) ∧
    (∀ t e, t.sendFails = false → t.evtResult = Except.ok () →
      t.recvResult = Except.ok (Except.error e) →
      (vm_info t).1 = Except.error e) ∧
    (∀ t e, t.sendFails = false → t.evtResult = Except.ok () →
      t.recvResult = Except.ok (Except.error e) →
      (vmm_ping t).1 = Except.error e) ∧
    (∀ t e, t.sendFails = false → t.evtResult = Except.ok () →
      t.recvResult = Except.ok (Except.error e) →
      (vmm_shutdown t).1 = Except.error e) ∧
    (∀ t data e, t.sendFails = false → t.evtResult = Except.ok () →
      t.recvResult = Except.ok (Except.error e) →
      (vm_add_device t data).1 = Except.error e) ∧
    (∀ t data e, t.sendFails = false → t.evtResult = Except.ok () →
      t.recvResult = Except.ok (Except.error e) →
      (vm_remove_device t data).1 = Except.error e) ∧
    (∀ t data e, t.sendFails = false → t.evtResult = Except.ok () →
      t.recvResult = Except.ok (Except.error e) →
      (vm_add_disk t data).1 = Except.error e) ∧
    (∀ t data e, t.sendFails = false → t.evtResult = Except.ok () →
      t.recvResult = Except.ok (Except.error e) →
      (vm_add_fs t data).1 = Except.error e) ∧
    (∀ t data e, t.sendFails = false → t.evtResult = Except.ok () →
      t.recvResult = Except.ok (Except.error e) →
      (vm_add_pmem t data).1 = Except.error e) ∧
    (∀ t data e, t.sendFails = false → t.evtResult = Except.ok () →
      t.recvResult = Except.ok (Except.error e) →
      (vm_add_net t data).1 = Except.error e) ∧
    (∀ t data e, t.sendFails = false → t.evtResult = Except.ok () →
      t.recvResult = Except.ok (Except.error e) →
      (vm_add_vsock t data).1 = Except.error e) :=
  ⟨fun t config e h1 h2 h3 => by
      rw [vm_create_eq_specCall, specCall_inner_error _ _ _ _ h1 h2 h3],
   fun t action e h1 h2 h3 => by
      rw [vm_action_eq_specCall, specCall_inner_error _ _ _ _ h1 h2 h3],
   fun t e h1 h2 h3 => by
      rw [vm_boot_eq_specCall, specCall_inner_error _ _ _ _ h1 h2 h3],
   fun t e h1 h2 h3 => by
      rw [vm_delete_eq_specCall, specCall_inner_error _ _ _ _ h1 h2 h3],
   fun t e h1 h2 h3 => by
      rw [vm_shutdown_eq_specCall, specCall_inner_error _ _ _ _ h1 h2 h3],
   fun t e h1 h2 h3 => by
      rw [vm_reboot_eq_specCall, specCall_inner_error _ _ _ _ h1 h2 h3],
   fun t e h1 h2 h3 => by
      rw [vm_info_eq_specCall, specCall_inner_error _ _ _ _ h1 h2 h3],
   fun t e h1 h2 h3 => by
      rw [vmm_ping_eq_specCall, specCall_inner_error _ _ _ _ h1 h2 h3],
   fun t e h1 h2 h3 => by
      rw [vmm_shutdown_eq_specCall, specCall_inner_error _ _ _ _ h1 h2 h3],
   fun t data e h1 h2 h3 => by
      rw [vm_add_device_eq_specCall, specCall_inner_error _ _ _ _ h1 h2 h3],
   fun t data e h1 h2 h3 => by
      rw [vm_remove_device_eq_specCall,
          specCall_inner_error _ _ _ _ h1 h2 h3],
   fun t data e h1 h2 h3 => by
      rw [vm_add_disk_eq_specCall, specCall_inner_error _ _ _ _ h1 h2 h3],
   fun t data e h1 h2 h3 => by
      rw [vm_add_fs_eq_specCall, specCall_inner_error _ _ _ _ h1 h2 h3],
   fun t data e h1 h2 h3 => by
      rw [vm_add_pmem_eq_specCall, specCall_inner_error _ _ _ _ h1 h2 h3],
   fun t data e h1 h2 h3 => by
      rw [vm_add_net_eq_specCall, specCall_inner_error _ _ _ _ h1 h2 h3],
   fun t data e h1 h2 h3 => by
      rw [vm_add_vsock_eq_specCall, specCall_inner_error _ _ _ _ h1 h2 h3]⟩

/-- C3 witness: a mock dispatcher answering a create call with the
already-created domain error is observed as exactly that error. -/
theorem C3_domain_error_passthrough_witness :
    (vm_create
        ⟨5, false, Except.ok (),
         Except.ok (Except.error ApiError.VmAlreadyCreated)⟩ ⟨0⟩).1 =
      Except.error ApiError.VmAlreadyCreated :=
  C3_domain_error_passthrough.1 _ _ _ rfl rfl rfl

/-- C4 counterexample: the already-created, missing-config, not-booted
and not-created kinds of `ApiError` carry no `VmError` payload at all
(mod.rs:68, 80, 83, 86), so the claim that every listed domain kind
wraps a `VmError` verbatim fails on them. -/
theorem C4_counterexample :
    domainPayload ApiError.VmAlreadyCreated = none ∧
    domainPayload ApiError.VmMissingConfig = none ∧
    domainPayload ApiError.VmNotBooted = none ∧
    domainPayload ApiError.VmNotCreated = none :=
  ⟨rfl, rfl, rfl, rfl⟩

/-- C4 (amended): every domain error kind except already-created,
missing-config, not-booted and not-created wraps the underlying
`VmError` value verbatim as its payload; those four kinds carry no
payload. -/
theorem C4_domain_wrap_amended : ∀ e : VmError,
    domainPayload (ApiError.VmBoot e) = some e ∧
    domainPayload (ApiError.VmCreate e) = some e ∧
    domainPayload (ApiError.VmDelete e) = some e ∧
    domainPayload (ApiError.VmInfo e) = some e ∧
    domainPayload (ApiError.VmShutdown e) = some e ∧
    domainPayload (ApiError.VmReboot e) = some e ∧
    domainPayload (ApiError.VmmShutdown e) = some e ∧
    domainPayload (ApiError.VmAddDevice e) = some e ∧
    domainPayload (ApiError.VmRemoveDevice e) = some e ∧
    domainPayload (ApiError.VmAddDisk e) = some e ∧
    domainPayload (ApiError.VmAddFs e) = some e ∧
    domainPayload (ApiError.VmAddPmem e) = some e ∧
    domainPayload (ApiError.VmAddNet e) = some e ∧
    domainPayload (ApiError.VmAddVsock e) = some e ∧
    domainPayload ApiError.VmAlreadyCreated = none ∧
    domainPayload ApiError.VmMissingConfig = none ∧
    domainPayload ApiError.VmNotBooted = none ∧
    domainPayload ApiError.VmNotCreated = none :=
  fun e =>
    ⟨rfl, rfl, rfl, rfl, rfl, rfl, rfl, rfl, rfl, rfl, rfl, rfl, rfl, rfl,
     rfl, rfl, rfl, rfl⟩

/-- C5: `vmm_ping` returns a received ping payload unchanged and
`vm_info` returns a received VM-info payload (config handle and state
snapshot) unchanged; in both wrappers any other successfully received
payload shape yields the payload-type-mismatch error. -/
theorem C5_info_ping_payloads :
    (∀ t pong, t.sendFails = false → t.evtResult = Except.ok () →
      t.recvResult =
        Except.ok (Except.ok (ApiResponsePayload.VmmPing pong)) →
      (vmm_ping t).1 = Except.ok pong) ∧
    (∀ t info, t.sendFails = false → t.evtResult = Except.ok () →
      t.recvResult =
        Except.ok (Except.ok (ApiResponsePayload.VmInfo info)) →
      (vm_info t).1 = Except.ok info) ∧
    (∀ t p, t.sendFails = false → t.evtResult = Except.ok () →
      t.recvResult = Except.ok (Except.ok p) → isVmmPingShape p = false →
      (vmm_ping t).1 = Except.error ApiError.ResponsePayloadType) ∧
    (∀ t p, t.sendFails = false → t.evtResult = Except.ok () →
      t.recvResult = Except.ok (Except.ok p) → isVmInfoShape p = false →
      (vm_info t).1 = Except.error ApiError.ResponsePayloadType) :=
  ⟨fun t pong h1 h2 h3 => by
      rw [vmm_ping_eq_specCall, specCall_payload _ _ _ _ h1 h2 h3]
      rfl,
   fun t info h1 h2 h3 => by
      rw [vm_info_eq_specCall, specCall_payload _ _ _ _ h1 h2 h3]
      rfl,
   fun t p h1 h2 h3 h4 => by
      rw [vmm_ping_eq_specCall, specCall_payload _ _ _ _ h1 h2 h3]
      exact expectVmmPing_not_shape p h4,
   fun t p h1 h2 h3 h4 => by
      rw [vm_info_eq_specCall, specCall_payload _ _ _ _ h1 h2 h3]
      exact expectVmInfo_not_shape p h4⟩

/-- C5 witness: the end-to-end ping of the spec with version "1.0.0", a
VM-info round trip, and a deliberately mismatched ping payload. -/
theorem C5_info_ping_payloads_witness :
    (vmm_ping
        ⟨3, false, Except.ok (),
         Except.ok (Except.ok
           (ApiResponsePayload.VmmPing ⟨"1.0.0"⟩))⟩).1 =
      Except.ok ⟨"1.0.0"⟩ ∧
    (vm_info
        ⟨4, false, Except.ok (),
         Except.ok (Except.ok
           (ApiResponsePayload.VmInfo ⟨⟨6⟩, ⟨1⟩⟩))⟩).1 =
      Except.ok ⟨⟨6⟩, ⟨1⟩⟩ ∧
    (vmm_ping
        ⟨3, false, Except.ok (),
         Except.ok (Except.ok ApiResponsePayload.Empty)⟩).1 =
      Except.error ApiError.ResponsePayloadType :=
  ⟨C5_info_ping_payloads.1 _ _ rfl rfl rfl,
   C5_info_ping_payloads.2.1 _ _ rfl rfl rfl,
   C5_info_ping_payloads.2.2.1 _ _ rfl rfl rfl rfl⟩

/-- C2: in every wrapper the transport steps happen in the order enqueue,
eventfd signal, reply receive, each running only if the previous one
succeeded: a failed send returns the send-failed error with an empty
trace (no eventfd write); a failed eventfd write after a successful send
returns the notify-write-failed error with the envelope still enqueued
and no receive performed; a failed receive returns the receive-failed
error. -/
theorem C2_transport_order :
    (∀ t config, t.sendFails = true →
      vm_create t config =
        (Except.error
           (ApiError.RequestSend ⟨ApiRequest.VmCreate config t.chanId⟩),
         [])) ∧
    (∀ t config e, t.sendFails = false → t.evtResult = Except.error e →
      vm_create t config =
        (Except.error (ApiError.EventFdWrite e),
         [Event.enqueued (ApiRequest.VmCreate config t.chanId),
          Event.evtWrite 1])) ∧
    (∀ t config e, t.sendFails = false → t.evtResult = Except.ok () →
      t.recvResult = Except.error e →
      vm_create t config =
        (Except.error (ApiError.ResponseRecv e),
         [Event.enqueued (ApiRequest.VmCreate config t.chanId),
          Event.evtWrite 1, Event.recvWait t.chanId])) ∧
    (∀ t action, t.sendFails = true →
      vm_action t action =
        (Except.error
           (ApiError.RequestSend ⟨actionRequest action t.chanId⟩),
         [])) ∧
    (∀ t action e, t.sendFails = false → t.evtResult = Except.error e →
      vm_action t action =
        (Except.error (ApiError.EventFdWrite e),
         [Event.enqueued (actionRequest action t.chanId),
          Event.evtWrite 1])) ∧
    (∀ t action e, t.sendFails = false → t.evtResult = Except.ok () →
      t.recvResult = Except.error e →
      vm_action t action =
        (Except.error (ApiError.ResponseRecv e),
         [Event.enqueued (actionRequest action t.chanId),
          Event.evtWrite 1, Event.recvWait t.chanId])) ∧
    (∀ t, t.sendFails = true →
      vm_boot t =
        (Except.error (ApiError.RequestSend ⟨ApiRequest.VmBoot t.chanId⟩),
         [])) ∧
    (∀ t e, t.sendFails = false → t.evtResult = Except.error e →
      vm_boot t =
        (Except.error (ApiError.EventFdWrite e),
         [Event.enqueued (ApiRequest.VmBoot t.chanId),
          Event.evtWrite 1])) ∧
    (∀ t e, t.sendFails = false → t.evtResult = Except.ok () →
      t.recvResult = Except.error e →
      vm_boot t =
        (Except.error (ApiError.ResponseRecv e),
         [Event.enqueued (ApiRequest.VmBoot t.chanId),
          Event.evtWrite 1, Event.recvWait t.chanId])) ∧
    (∀ t, t.sendFails = true →
      vm_delete t =
        (Except.error
           (ApiError.RequestSend ⟨ApiRequest.VmDelete t.chanId⟩),
         [])) ∧
    (∀ t e, t.sendFails = false → t.evtResult = Except.error e →
      vm_delete t =
        (Except.error (ApiError.EventFdWrite e),
         [Event.enqueued (ApiRequest.VmDelete t.chanId),
          Event.evtWrite 1])) ∧
    (∀ t e, t.sendFails = false → t.evtResult = Except.ok () →
      t.recvResult = Except.error e →
      vm_delete t =
        (Except.error (ApiError.ResponseRecv e),
         [Event.enqueued (ApiRequest.VmDelete t.chanId),
          Event.evtWrite 1, Event.recvWait t.chanId])) ∧
    (∀ t, t.sendFails = true →
      vm_shutdown t =
        (Except.error
           (ApiError.RequestSend ⟨ApiRequest.VmShutdown t.chanId⟩),
         [])) ∧
    (∀ t e, t.sendFails = false → t.evtResult = Except.error e →
      vm_shutdown t =
        (Except.error (ApiError.EventFdWrite e),
         [Event.enqueued (ApiRequest.VmShutdown t.chanId),
          Event.evtWrite 1])) ∧
    (∀ t e, t.sendFails = false → t.evtResult = Except.ok () →
      t.recvResult = Except.error e →
      vm_shutdown t =
        (Except.error (ApiError.ResponseRecv e),
         [Event.enqueued (ApiRequest.VmShutdown t.chanId),
          Event.evtWrite 1, Event.recvWait t.chanId])) ∧
    (∀ t, t.sendFails = true →
      vm_reboot t =
        (Except.error
           (ApiError.RequestSend ⟨ApiRequest.VmReboot t.chanId⟩),
         [])) ∧
    (∀ t e, t.sendFails = false → t.evtResult = Except.error e →
      vm_reboot t =
        (Except.error (ApiError.EventFdWrite e),
         [Event.enqueued (ApiRequest.VmReboot t.chanId),
          Event.evtWrite 1])) ∧
    (∀ t e, t.sendFails = false → t.evtResult = Except.ok () →
      t.recvResult = Except.error e →
      vm_reboot t =
        (Except.error (ApiError.ResponseRecv e),
         [Event.enqueued (ApiRequest.VmReboot t.chanId),
          Event.evtWrite 1, Event.recvWait t.chanId])) ∧
    (∀ t, t.sendFails = true →
      vm_info t =
        (Except.error (ApiError.RequestSend ⟨ApiRequest.VmInfo t.chanId⟩),
         [])) ∧
    (∀ t e, t.sendFails = false → t.evtResult = Except.error e →
      vm_info t =
        (Except.error (ApiError.EventFdWrite e),
         [Event.enqueued (ApiRequest.VmInfo t.chanId),
          Event.evtWrite 1])) ∧
    (∀ t e, t.sendFails = false → t.evtResult = Except.ok () →
      t.recvResult = Except.error e →
      vm_info t =
        (Except.error (ApiError.ResponseRecv e),
         [Event.enqueued (ApiRequest.VmInfo t.chanId),
          Event.evtWrite 1, Event.recvWait t.chanId])) ∧
    (∀ t, t.sendFails = true →
      vmm_ping t =
        (Except.error
           (ApiError.RequestSend ⟨ApiRequest.VmmPing t.chanId⟩),
         [])) ∧
    (∀ t e, t.sendFails = false → t.evtResult = Except.error e →
      vmm_ping t =
        (Except.error (ApiError.EventFdWrite e),
         [Event.enqueued (ApiRequest.VmmPing t.chanId),
          Event.evtWrite 1])) ∧
    (∀ t e, t.sendFails = false → t.evtResult = Except.ok () →
      t.recvResult = Except.error e →
      vmm_ping t =
        (Except.error (ApiError.ResponseRecv e),
         [Event.enqueued (ApiRequest.VmmPing t.chanId),
          Event.evtWrite 1, Event.recvWait t.chanId])) ∧
    (∀ t, t.sendFails = true →
      vmm_shutdown t =
        (Except.error
           (ApiError.RequestSend ⟨ApiRequest.VmmShutdown t.chanId⟩),
         [])) ∧
    (∀ t e, t.sendFails = false → t.evtResult = Except.error e →
      vmm_shutdown t =
        (Except.error (ApiError.EventFdWrite e),
         [Event.enqueued (ApiRequest.VmmShutdown t.chanId),
          Event.evtWrite 1])) ∧
    (∀ t e, t.sendFails = false → t.evtResult = Except.ok () →
      t.recvResult = Except.error e →
      vmm_shutdown t =
        (Except.error (ApiError.ResponseRecv e),
         [Event.enqueued (ApiRequest.VmmShutdown t.chanId),
          Event.evtWrite 1, Event.recvWait t.chanId])) ∧
    (∀ t data, t.sendFails = true →
      vm_add_device t data =
        (Except.error
           (ApiError.RequestSend ⟨ApiRequest.VmAddDevice data t.chanId⟩),
         [])) ∧
    (∀ t data e, t.sendFails = false → t.evtResult = Except.error e →
      vm_add_device t data =
        (Except.error (ApiError.EventFdWrite e),
         [Event.enqueued (ApiRequest.VmAddDevice data t.chanId),
          Event.evtWrite 1])) ∧
    (∀ t data e, t.sendFails = false → t.evtResult = Except.ok () →
      t.recvResult = Except.error e →
      vm_add_device t data =
        (Except.error (ApiError.ResponseRecv e),
         [Event.enqueued (ApiRequest.VmAddDevice data t.chanId),
          Event.evtWrite 1, Event.recvWait t.chanId])) ∧
    (∀ t data, t.sendFails = true →
      vm_remove_device t data =
        (Except.error
           (ApiError.RequestSend
             ⟨ApiRequest.VmRemoveDevice data t.chanId⟩),
         [])) ∧
    (∀ t data e, t.sendFails = false → t.evtResult = Except.error e →
      vm_remove_device t data =
        (Except.error (ApiError.EventFdWrite e),
         [Event.enqueued (ApiRequest.VmRemoveDevice data t.chanId),
          Event.evtWrite 1])) ∧
    (∀ t data e, t.sendFails = false → t.evtResult = Except.ok () →
      t.recvResult = Except.error e →
      vm_remove_device t data =
        (Except.error (ApiError.ResponseRecv e),
         [Event.enqueued (ApiRequest.VmRemoveDevice data t.chanId),
          Event.evtWrite 1, Event.recvWait t.chanId])) ∧
    (∀ t data, t.sendFails = true →
      vm_add_disk t data =
        (Except.error
           (ApiError.RequestSend ⟨ApiRequest.VmAddDisk data t.chanId⟩),
         [])) ∧
    (∀ t data e, t.sendFails = false → t.evtResult = Except.error e →
      vm_add_disk t data =
        (Except.error (ApiError.EventFdWrite e),
         [Event.enqueued (ApiRequest.VmAddDisk data t.chanId),
          Event.evtWrite 1])) ∧
    (∀ t data e, t.sendFails = false → t.evtResult = Except.ok () →
      t.recvResult = Except.error e →
      vm_add_disk t data =
        (Except.error (ApiError.ResponseRecv e),
         [Event.enqueued (ApiRequest.VmAddDisk data t.chanId),
          Event.evtWrite 1, Event.recvWait t.chanId])) ∧
    (∀ t data, t.sendFails = true →
      vm_add_fs t data =
        (Except.error
           (ApiError.RequestSend ⟨ApiRequest.VmAddFs data t.chanId⟩),
         [])) ∧
    (∀ t data e, t.sendFails = false → t.evtResult = Except.error e →
      vm_add_fs t data =
        (Except.error (ApiError.EventFdWrite e),
         [Event.enqueued (ApiRequest.VmAddFs data t.chanId),
          Event.evtWrite 1])) ∧
    (∀ t data e, t.sendFails = false → t.evtResult = Except.ok () →
      t.recvResult = Except.error e →
      vm_add_fs t data =
        (Except.error (ApiError.ResponseRecv e),
         [Event.enqueued (ApiRequest.VmAddFs data t.chanId),
          Event.evtWrite 1, Event.recvWait t.chanId])) ∧
    (∀ t data, t.sendFails = true →
      vm_add_pmem t data =
        (Except.error
           (ApiError.RequestSend ⟨ApiRequest.VmAddPmem data t.chanId⟩),
         [])) ∧
    (∀ t data e, t.sendFails = false → t.evtResult = Except.error e →
      vm_add_pmem t data =
        (Except.error (ApiError.EventFdWrite e),
         [Event.enqueued (ApiRequest.VmAddPmem data t.chanId),
          Event.evtWrite 1])) ∧
    (∀ t data e, t.sendFails = false → t.evtResult = Except.ok () →
      t.recvResult = Except.error e →
      vm_add_pmem t data =
        (Except.error (ApiError.ResponseRecv e),
         [Event.enqueued (ApiRequest.VmAddPmem data t.chanId),
          Event.evtWrite 1, Event.recvWait t.chanId])) ∧
    (∀ t data, t.sendFails = true →
      vm_add_net t data =
        (Except.error
           (ApiError.RequestSend ⟨ApiRequest.VmAddNet data t.chanId⟩),
         [])) ∧
    (∀ t data e, t.sendFails = false → t.evtResult = Except.error e →
      vm_add_net t data =
        (Except.error (ApiError.EventFdWrite e),
         [Event.enqueued (ApiRequest.VmAddNet data t.chanId),
          Event.evtWrite 1])) ∧
    (∀ t data e, t.sendFails = false → t.evtResult = Except.ok () →
      t.recvResult = Except.error e →
      vm_add_net t data =
        (Except.error (ApiError.ResponseRecv e),
         [Event.enqueued (ApiRequest.VmAddNet data t.chanId),
          Event.evtWrite 1, Event.recvWait t.chanId])) ∧
    (∀ t data, t.sendFails = true →
      vm_add_vsock t data =
        (Except.error
           (ApiError.RequestSend ⟨ApiRequest.VmAddVsock data t.chanId⟩),
         [])) ∧
    (∀ t data e, t.sendFails = false → t.evtResult = Except.error e →
      vm_add_vsock t data =
        (Except.error (ApiError.EventFdWrite e),
         [Event.enqueued (ApiRequest.VmAddVsock data t.chanId),
          Event.evtWrite 1])) ∧
    (∀ t data e, t.sendFails = false → t.evtResult = Except.ok () →
      t.recvResult = Except.error e →
      vm_add_vsock t data =
        (Except.error (ApiError.ResponseRecv e),
         [Event.enqueued (ApiRequest.VmAddVsock data t.chanId),
          Event.evtWrite 1, Event.recvWait t.chanId])) :=
  ⟨fun t config h => by
      rw [vm_create_eq_specCall]; exact specCall_send_fail _ _ _ h,
   fun t config e h1 h2 => by
      rw [vm_create_eq_specCall]; exact specCall_evt_fail _ _ _ _ h1 h2,
   fun t config e h1 h2 h3 => by
      rw [vm_create_eq_specCall]
      exact specCall_recv_fail _ _ _ _ h1 h2 h3,
   fun t action h => by
      rw [vm_action_eq_specCall]; exact specCall_send_fail _ _ _ h,
   fun t action e h1 h2 => by
      rw [vm_action_eq_specCall]; exact specCall_evt_fail _ _ _ _ h1 h2,
   fun t action e h1 h2 h3 => by
      rw [vm_action_eq_specCall]
      exact specCall_recv_fail _ _ _ _ h1 h2 h3,
   fun t h => by
      rw [vm_boot_eq_specCall]; exact specCall_send_fail _ _ _ h,
   fun t e h1 h2 => by
      rw [vm_boot_eq_specCall]; exact specCall_evt_fail _ _ _ _ h1 h2,
   fun t e h1 h2 h3 => by
      rw [vm_boot_eq_specCall]; exact specCall_recv_fail _ _ _ _ h1 h2 h3,
   fun t h => by
      rw [vm_delete_eq_specCall]; exact specCall_send_fail _ _ _ h,
   fun t e h1 h2 => by
      rw [vm_delete_eq_specCall]; exact specCall_evt_fail _ _ _ _ h1 h2,
   fun t e h1 h2 h3 => by
      rw [vm_delete_eq_specCall]
      exact specCall_recv_fail _ _ _ _ h1 h2 h3,
   fun t h => by
      rw [vm_shutdown_eq_specCall]; exact specCall_send_fail _ _ _ h,
   fun t e h1 h2 => by
      rw [vm_shutdown_eq_specCall]; exact specCall_evt_fail _ _ _ _ h1 h2,
   fun t e h1 h2 h3 => by
      rw [vm_shutdown_eq_specCall]
      exact specCall_recv_fail _ _ _ _ h1 h2 h3,
   fun t h => by
      rw [vm_reboot_eq_specCall]; exact specCall_send_fail _ _ _ h,
   fun t e h1 h2 => by
      rw [vm_reboot_eq_specCall]; exact specCall_evt_fail _ _ _ _ h1 h2,
   fun t e h1 h2 h3 => by
      rw [vm_reboot_eq_specCall]
      exact specCall_recv_fail _ _ _ _ h1 h2 h3,
   fun t h => by
      rw [vm_info_eq_specCall]; exact specCall_send_fail _ _ _ h,
   fun t e h1 h2 => by
      rw [vm_info_eq_specCall]; exact specCall_evt_fail _ _ _ _ h1 h2,
   fun t e h1 h2 h3 => by
      rw [vm_info_eq_specCall]; exact specCall_recv_fail _ _ _ _ h1 h2 h3,
   fun t h => by
      rw [vmm_ping_eq_specCall]; exact specCall_send_fail _ _ _ h,
   fun t e h1 h2 => by
      rw [vmm_ping_eq_specCall]; exact specCall_evt_fail _ _ _ _ h1 h2,
   fun t e h1 h2 h3 => by
      rw [vmm_ping_eq_specCall]
      exact specCall_recv_fail _ _ _ _ h1 h2 h3,
   fun t h => by
      rw [vmm_shutdown_eq_specCall]; exact specCall_send_fail _ _ _ h,
   fun t e h1 h2 => by
      rw [vmm_shutdown_eq_specCall]
      exact specCall_evt_fail _ _ _ _ h1 h2,
   fun t e h1 h2 h3 => by
      rw [vmm_shutdown_eq_specCall]
      exact specCall_recv_fail _ _ _ _ h1 h2 h3,
   fun t data h => by
      rw [vm_add_device_eq_specCall]; exact specCall_send_fail _ _ _ h,
   fun t data e h1 h2 => by
      rw [vm_add_device_eq_specCall]
      exact specCall_evt_fail _ _ _ _ h1 h2,
   fun t data e h1 h2 h3 => by
      rw [vm_add_device_eq_specCall]
      exact specCall_recv_fail _ _ _ _ h1 h2 h3,
   fun t data h => by
      rw [vm_remove_device_eq_specCall]; exact specCall_send_fail _ _ _ h,
   fun t data e h1 h2 => by
      rw [vm_remove_device_eq_specCall]
      exact specCall_evt_fail _ _ _ _ h1 h2,
   fun t data e h1 h2 h3 => by
      rw [vm_remove_device_eq_specCall]
      exact specCall_recv_fail _ _ _ _ h1 h2 h3,
   fun t data h => by
      rw [vm_add_disk_eq_specCall]; exact specCall_send_fail _ _ _ h,
   fun t data e h1 h2 => by
      rw [vm_add_disk_eq_specCall]; exact specCall_evt_fail _ _ _ _ h1 h2,
   fun t data e h1 h2 h3 => by
      rw [vm_add_disk_eq_specCall]
      exact specCall_recv_fail _ _ _ _ h1 h2 h3,
   fun t data h => by
      rw [vm_add_fs_eq_specCall]; exact specCall_send_fail _ _ _ h,
   fun t data e h1 h2 => by
      rw [vm_add_fs_eq_specCall]; exact specCall_evt_fail _ _ _ _ h1 h2,
   fun t data e h1 h2 h3 => by
      rw [vm_add_fs_eq_specCall]
      exact specCall_recv_fail _ _ _ _ h1 h2 h3,
   fun t data h => by
      rw [vm_add_pmem_eq_specCall]; exact specCall_send_fail _ _ _ h,
   fun t data e h1 h2 => by
      rw [vm_add_pmem_eq_specCall]; exact specCall_evt_fail _ _ _ _ h1 h2,
   fun t data e h1 h2 h3 => by
      rw [vm_add_pmem_eq_specCall]
      exact specCall_recv_fail _ _ _ _ h1 h2 h3,
   fun t data h => by
      rw [vm_add_net_eq_specCall]; exact specCall_send_fail _ _ _ h,
   fun t data e h1 h2 => by
      rw [vm_add_net_eq_specCall]; exact specCall_evt_fail _ _ _ _ h1 h2,
   fun t data e h1 h2 h3 => by
      rw [vm_add_net_eq_specCall]
      exact specCall_recv_fail _ _ _ _ h1 h2 h3,
   fun t data h => by
      rw [vm_add_vsock_eq_specCall]; exact specCall_send_fail _ _ _ h,
   fun t data e h1 h2 => by
      rw [vm_add_vsock_eq_specCall]; exact specCall_evt_fail _ _ _ _ h1 h2,
   fun t data e h1 h2 h3 => by
      rw [vm_add_vsock_eq_specCall]
      exact specCall_recv_fail _ _ _ _ h1 h2 h3⟩

/-- C2 witness: the three failure phases of `vm_create` evaluated at
concrete transports: failed send yields send-failed with an empty trace,
failed eventfd write yields notify-write-failed with the envelope still
enqueued, failed receive yields receive-failed. -/
theorem C2_transport_order_witness :
    vm_create
        ⟨7, true, Except.ok (),
         Except.ok (Except.ok ApiResponsePayload.Empty)⟩ ⟨0⟩ =
      (Except.error
         (ApiError.RequestSend ⟨ApiRequest.VmCreate ⟨0⟩ 7⟩), []) ∧
    vm_create
        ⟨7, false, Except.error ⟨3⟩,
         Except.ok (Except.ok ApiResponsePayload.Empty)⟩ ⟨0⟩ =
      (Except.error (ApiError.EventFdWrite ⟨3⟩),
       [Event.enqueued (ApiRequest.VmCreate ⟨0⟩ 7), Event.evtWrite 1]) ∧
    vm_create ⟨7, false, Except.ok (), Except.error ⟨⟩⟩ ⟨0⟩ =
      (Except.error (ApiError.ResponseRecv ⟨⟩),
       [Event.enqueued (ApiRequest.VmCreate ⟨0⟩ 7), Event.evtWrite 1,
        Event.recvWait 7]) :=
  ⟨C2_transport_order.1 _ _ rfl,
   C2_transport_order.2.1 _ _ _ rfl rfl,
   C2_transport_order.2.2.1 _ _ _ rfl rfl rfl⟩

/-- C6: one invocation of any wrapper performs at most one blocking reply
receive; together with the wrapper's return type `ApiResult` (one success
payload of the expected type or one `ApiError`, by construction) this
gives exactly one result per call, never zero and never more than one. -/
theorem C6_single_response :
    (∀ t config, (recvChans (vm_create t config).2).length ≤ 1) ∧
    (∀ t action, (recvChans (vm_action t action).2).length ≤ 1) ∧
    (∀ t, (recvChans (vm_boot t).2).length ≤ 1) ∧
    (∀ t, (recvChans (vm_delete t).2).length ≤ 1) ∧
    (∀ t, (recvChans (vm_shutdown t).2).length ≤ 1) ∧
    (∀ t, (recvChans (vm_reboot t).2).length ≤ 1) ∧
    (∀ t, (recvChans (vm_info t).2).length ≤ 1) ∧
    (∀ t, (recvChans (vmm_ping t).2).length ≤ 1) ∧
    (∀ t, (recvChans (vmm_shutdown t).2).length ≤ 1) ∧
    (∀ t data, (recvChans (vm_add_device t data).2).length ≤ 1) ∧
    (∀ t data, (recvChans (vm_remove_device t data).2).length ≤ 1) ∧
    (∀ t data, (recvChans (vm_add_disk t data).2).length ≤ 1) ∧
    (∀ t data, (recvChans (vm_add_fs t data).2).length ≤ 1) ∧
    (∀ t data, (recvChans (vm_add_pmem t data).2).length ≤ 1) ∧
    (∀ t data, (recvChans (vm_add_net t data).2).length ≤ 1) ∧
    (∀ t data, (recvChans (vm_add_vsock t data).2).length ≤ 1) :=
  ⟨fun t config => by
      rw [vm_create_eq_specCall]; exact specCall_recv_once _ _ _,
   fun t action => by
      rw [vm_action_eq_specCall]; exact specCall_recv_once _ _ _,
   fun t => by rw [vm_boot_eq_specCall]; exact specCall_recv_once _ _ _,
   fun t => by rw [vm_delete_eq_specCall]; exact specCall_recv_once _ _ _,
   fun t => by
      rw [vm_shutdown_eq_specCall]; exact specCall_recv_once _ _ _,
   fun t => by rw [vm_reboot_eq_specCall]; exact specCall_recv_once _ _ _,
   fun t => by rw [vm_info_eq_specCall]; exact specCall_recv_once _ _ _,
   fun t => by rw [vmm_ping_eq_specCall]; exact specCall_recv_once _ _ _,
   fun t => by
      rw [vmm_shutdown_eq_specCall]; exact specCall_recv_once _ _ _,
   fun t data => by
      rw [vm_add_device_eq_specCall]; exact specCall_recv_once _ _ _,
   fun t data => by
      rw [vm_remove_device_eq_specCall]; exact specCall_recv_once _ _ _,
   fun t data => by
      rw [vm_add_disk_eq_specCall]; exact specCall_recv_once _ _ _,
   fun t data => by
      rw [vm_add_fs_eq_specCall]; exact specCall_recv_once _ _ _,
   fun t data => by
      rw [vm_add_pmem_eq_specCall]; exact specCall_recv_once _ _ _,
   fun t data => by
      rw [vm_add_net_eq_specCall]; exact specCall_recv_once _ _ _,
   fun t data => by
      rw [vm_add_vsock_eq_specCall]; exact specCall_recv_once _ _ _⟩

/-- C7: `vm_boot`, `vm_delete`, `vm_shutdown` and `vm_reboot` are
extensionally equal to the shared `vm_action` routine at the matching
`VmAction` variant, and every wrapper equals the uniform seven-step
protocol `specCall` of the specification, differing only in its envelope
builder and its expected payload shape. -/
theorem C7_uniform_protocol :
    (∀ t, vm_boot t = vm_action t VmAction.Boot) ∧
    (∀ t, vm_delete t = vm_action t VmAction.Delete) ∧
    (∀ t, vm_shutdown t = vm_action t VmAction.Shutdown) ∧
    (∀ t, vm_reboot t = vm_action t VmAction.Reboot) ∧
    (∀ t config,
      vm_create t config =
        specCall t (ApiRequest.VmCreate config) expectEmpty) ∧
    (∀ t action,
      vm_action t action =
        specCall t (actionRequest action) expectEmpty) ∧
    (∀ t, vm_boot t = specCall t ApiRequest.VmBoot expectEmpty) ∧
    (∀ t, vm_delete t = specCall t ApiRequest.VmDelete expectEmpty) ∧
    (∀ t, vm_shutdown t = specCall t ApiRequest.VmShutdown expectEmpty) ∧
    (∀ t, vm_reboot t = specCall t ApiRequest.VmReboot expectEmpty) ∧
    (∀ t, vm_info t = specCall t ApiRequest.VmInfo expectVmInfo) ∧
    (∀ t, vmm_ping t = specCall t ApiRequest.VmmPing expectVmmPing) ∧
    (∀ t,
      vmm_shutdown t = specCall t ApiRequest.VmmShutdown expectEmpty) ∧
    (∀ t data,
      vm_add_device t data =
        specCall t (ApiRequest.VmAddDevice data) expectEmpty) ∧
    (∀ t data,
      vm_remove_device t data =
        specCall t (ApiRequest.VmRemoveDevice data) expectEmpty) ∧
    (∀ t data,
      vm_add_disk t data =
        specCall t (ApiRequest.VmAddDisk data) expectEmpty) ∧
    (∀ t data,
      vm_add_fs t data =
        specCall t (ApiRequest.VmAddFs data) expectEmpty) ∧
    (∀ t data,
      vm_add_pmem t data =
        specCall t (ApiRequest.VmAddPmem data) expectEmpty) ∧
    (∀ t data,
      vm_add_net t data =
        specCall t (ApiRequest.VmAddNet data) expectEmpty) ∧
    (∀ t data,
      vm_add_vsock t data =
        specCall t (ApiRequest.VmAddVsock data) expectEmpty) :=
  ⟨fun t => rfl, fun t => rfl, fun t => rfl, fun t => rfl,
   vm_create_eq_specCall, vm_action_eq_specCall, vm_boot_eq_specCall,
   vm_delete_eq_specCall, vm_shutdown_eq_specCall, vm_reboot_eq_specCall,
   vm_info_eq_specCall, vmm_ping_eq_specCall, vmm_shutdown_eq_specCall,
   vm_add_device_eq_specCall, vm_remove_device_eq_specCall,
   vm_add_disk_eq_specCall, vm_add_fs_eq_specCall,
   vm_add_pmem_eq_specCall, vm_add_net_eq_specCall,
   vm_add_vsock_eq_specCall⟩

/-- C8: each invocation enqueues at most one envelope, that envelope
carries the invocation's own fresh reply sender (`t.chanId`, the channel
created at call entry), and the only receive the wrapper ever performs is
on that same private channel: the reply path is private to the call.
Freshness across calls is by construction: each invocation has its own
`Transport` record and its `chanId` names the channel pair allocated by
its own `channel()` call. -/
theorem C8_private_reply_channel :
    (∀ t config,
      (enqSenders (vm_create t config).2 = [] ∨
       enqSenders (vm_create t config).2 = [t.chanId]) ∧
      (recvChans (vm_create t config).2 = [] ∨
       recvChans (vm_create t config).2 = [t.chanId])) ∧
    (∀ t action,
      (enqSenders (vm_action t action).2 = [] ∨
       enqSenders (vm_action t action).2 = [t.chanId]) ∧
      (recvChans (vm_action t action).2 = [] ∨
       recvChans (vm_action t action).2 = [t.chanId])) ∧
    (∀ t,
      (enqSenders (vm_boot t).2 = [] ∨
       enqSenders (vm_boot t).2 = [t.chanId]) ∧
      (recvChans (vm_boot t).2 = [] ∨
       recvChans (vm_boot t).2 = [t.chanId])) ∧
    (∀ t,
      (enqSenders (vm_delete t).2 = [] ∨
       enqSenders (vm_delete t).2 = [t.chanId]) ∧
      (recvChans (vm_delete t).2 = [] ∨
       recvChans (vm_delete t).2 = [t.chanId])) ∧
    (∀ t,
      (enqSenders (vm_shutdown t).2 = [] ∨
       enqSenders (vm_shutdown t).2 = [t.chanId]) ∧
      (recvChans (vm_shutdown t).2 = [] ∨
       recvChans (vm_shutdown t).2 = [t.chanId])) ∧
    (∀ t,
      (enqSenders (vm_reboot t).2 = [] ∨
       enqSenders (vm_reboot t).2 = [t.chanId]) ∧
      (recvChans (vm_reboot t).2 = [] ∨
       recvChans (vm_reboot t).2 = [t.chanId])) ∧
    (∀ t,
      (enqSenders (vm_info t).2 = [] ∨
       enqSenders (vm_info t).2 = [t.chanId]) ∧
      (recvChans (vm_info t).2 = [] ∨
       recvChans (vm_info t).2 = [t.chanId])) ∧
    (∀ t,
      (enqSenders (vmm_ping t).2 = [] ∨
       enqSenders (vmm_ping t).2 = [t.chanId]) ∧
      (recvChans (vmm_ping t).2 = [] ∨
       recvChans (vmm_ping t).2 = [t.chanId])) ∧
    (∀ t,
      (enqSenders (vmm_shutdown t).2 = [] ∨
       enqSenders (vmm_shutdown t).2 = [t.chanId]) ∧
      (recvChans (vmm_shutdown t).2 = [] ∨
       recvChans (vmm_shutdown t).2 = [t.chanId])) ∧
    (∀ t data,
      (enqSenders (vm_add_device t data).2 = [] ∨
       enqSenders (vm_add_device t data).2 = [t.chanId]) ∧
      (recvChans (vm_add_device t data).2 = [] ∨
       recvChans (vm_add_device t data).2 = [t.chanId])) ∧
    (∀ t data,
      (enqSenders (vm_remove_device t data).2 = [] ∨
       enqSenders (vm_remove_device t data).2 = [t.chanId]) ∧
      (recvChans (vm_remove_device t data).2 = [] ∨
       recvChans (vm_remove_device t data).2 = [t.chanId])) ∧
    (∀ t data,
      (enqSenders (vm_add_disk t data).2 = [] ∨
       enqSenders (vm_add_disk t data).2 = [t.chanId]) ∧
      (recvChans (vm_add_disk t data).2 = [] ∨
       recvChans (vm_add_disk t data).2 = [t.chanId])) ∧
    (∀ t data,
      (enqSenders (vm_add_fs t data).2 = [] ∨
       enqSenders (vm_add_fs t data).2 = [t.chanId]) ∧
      (recvChans (vm_add_fs t data).2 = [] ∨
       recvChans (vm_add_fs t data).2 = [t.chanId])) ∧
    (∀ t data,
      (enqSenders (vm_add_pmem t data).2 = [] ∨
       enqSenders (vm_add_pmem t data).2 = [t.chanId]) ∧
      (recvChans (vm_add_pmem t data).2 = [] ∨
       recvChans (vm_add_pmem t data).2 = [t.chanId])) ∧
    (∀ t data,
      (enqSenders (vm_add_net t data).2 = [] ∨
       enqSenders (vm_add_net t data).2 = [t.chanId]) ∧
      (recvChans (vm_add_net t data).2 = [] ∨
       recvChans (vm_add_net t data).2 = [t.chanId])) ∧
    (∀ t data,
      (enqSenders (vm_add_vsock t data).2 = [] ∨
       enqSenders (vm_add_vsock t data).2 = [t.chanId]) ∧
      (recvChans (vm_add_vsock t data).2 = [] ∨
       recvChans (vm_add_vsock t data).2 = [t.chanId])) :=
  ⟨fun t config => by
      rw [vm_create_eq_specCall]
      exact ⟨specCall_enqSenders _ _ _ rfl, specCall_recvChans _ _ _⟩,
   fun t action => by
      rw [vm_action_eq_specCall]
      exact ⟨specCall_enqSenders _ _ _
               (senderOf_actionRequest action t.chanId),
             specCall_recvChans _ _ _⟩,
   fun t => by
      rw [vm_boot_eq_specCall]
      exact ⟨specCall_enqSenders _ _ _ rfl, specCall_recvChans _ _ _⟩,
   fun t => by
      rw [vm_delete_eq_specCall]
      exact ⟨specCall_enqSenders _ _ _ rfl, specCall_recvChans _ _ _⟩,
   fun t => by
      rw [vm_shutdown_eq_specCall]
      exact ⟨specCall_enqSenders _ _ _ rfl, specCall_recvChans _ _ _⟩,
   fun t => by
      rw [vm_reboot_eq_specCall]
      exact ⟨specCall_enqSenders _ _ _ rfl, specCall_recvChans _ _ _⟩,
   fun t => by
      rw [vm_info_eq_specCall]
      exact ⟨specCall_enqSenders _ _ _ rfl, specCall_recvChans _ _ _⟩,
   fun t => by
      rw [vmm_ping_eq_specCall]
      exact ⟨specCall_enqSenders _ _ _ rfl, specCall_recvChans _ _ _⟩,
   fun t => by
      rw [vmm_shutdown_eq_specCall]
      exact ⟨specCall_enqSenders _ _ _ rfl, specCall_recvChans _ _ _⟩,
   fun t data => by
      rw [vm_add_device_eq_specCall]
      exact ⟨specCall_enqSenders _ _ _ rfl, specCall_recvChans _ _ _⟩,
   fun t data => by
      rw [vm_remove_device_eq_specCall]
      exact ⟨specCall_enqSenders _ _ _ rfl, specCall_recvChans _ _ _⟩,
   fun t data => by
      rw [vm_add_disk_eq_specCall]
      exact ⟨specCall_enqSenders _ _ _ rfl, specCall_recvChans _ _ _⟩,
   fun t data => by
      rw [vm_add_fs_eq_specCall]
      exact ⟨specCall_enqSenders _ _ _ rfl, specCall_recvChans _ _ _⟩,
   fun t data => by
      rw [vm_add_pmem_eq_specCall]
      exact ⟨specCall_enqSenders _ _ _ rfl, specCall_recvChans _ _ _⟩,
   fun t data => by
      rw [vm_add_net_eq_specCall]
      exact ⟨specCall_enqSenders _ _ _ rfl, specCall_recvChans _ _ _⟩,
   fun t data => by
      rw [vm_add_vsock_eq_specCall]
      exact ⟨specCall_enqSenders _ _ _ rfl, specCall_recvChans _ _ _⟩⟩

/-- C9: each invocation writes to the API eventfd at most once, always
the value 1, and never before a successful queue send: a call whose send
fails performs zero writes, and a call whose send succeeds performs
exactly one write (its trace starting with the enqueue) whatever the
receive outcome. -/
theorem C9_eventfd_write_discipline :
    (∀ t config, t.sendFails = true →
      evtWrites (vm_create t config).2 = []) ∧
    (∀ t config, t.sendFails = false →
      evtWrites (vm_create t config).2 = [1] ∧
      (vm_create t config).2.head? =
        some (Event.enqueued (ApiRequest.VmCreate config t.chanId))) ∧
    (∀ t action, t.sendFails = true →
      evtWrites (vm_action t action).2 = []) ∧
    (∀ t action, t.sendFails = false →
      evtWrites (vm_action t action).2 = [1] ∧
      (vm_action t action).2.head? =
        some (Event.enqueued (actionRequest action t.chanId))) ∧
    (∀ t, t.sendFails = true → evtWrites (vm_boot t).2 = []) ∧
    (∀ t, t.sendFails = false →
      evtWrites (vm_boot t).2 = [1] ∧
      (vm_boot t).2.head? =
        some (Event.enqueued (ApiRequest.VmBoot t.chanId))) ∧
    (∀ t, t.sendFails = true → evtWrites (vm_delete t).2 = []) ∧
    (∀ t, t.sendFails = false →
      evtWrites (vm_delete t).2 = [1] ∧
      (vm_delete t).2.head? =
        some (Event.enqueued (ApiRequest.VmDelete t.chanId))) ∧
    (∀ t, t.sendFails = true → evtWrites (vm_shutdown t).2 = []) ∧
    (∀ t, t.sendFails = false →
      evtWrites (vm_shutdown t).2 = [1] ∧
      (vm_shutdown t).2.head? =
        some (Event.enqueued (ApiRequest.VmShutdown t.chanId))) ∧
    (∀ t, t.sendFails = true → evtWrites (vm_reboot t).2 = []) ∧
    (∀ t, t.sendFails = false →
      evtWrites (vm_reboot t).2 = [1] ∧
      (vm_reboot t).2.head? =
        some (Event.enqueued (ApiRequest.VmReboot t.chanId))) ∧
    (∀ t, t.sendFails = true → evtWrites (vm_info t).2 = []) ∧
    (∀ t, t.sendFails = false →
      evtWrites (vm_info t).2 = [1] ∧
      (vm_info t).2.head? =
        some (Event.enqueued (ApiRequest.VmInfo t.chanId))) ∧
    (∀ t, t.sendFails = true → evtWrites (vmm_ping t).2 = []) ∧
    (∀ t, t.sendFails = false →
      evtWrites (vmm_ping t).2 = [1] ∧
      (vmm_ping t).2.head? =
        some (Event.enqueued (ApiRequest.VmmPing t.chanId))) ∧
    (∀ t, t.sendFails = true → evtWrites (vmm_shutdown t).2 = []) ∧
    (∀ t, t.sendFails = false →
      evtWrites (vmm_shutdown t).2 = [1] ∧
      (vmm_shutdown t).2.head? =
        some (Event.enqueued (ApiRequest.VmmShutdown t.chanId))) ∧
    (∀ t data, t.sendFails = true →
      evtWrites (vm_add_device t data).2 = []) ∧
    (∀ t data, t.sendFails = false →
      evtWrites (vm_add_device t data).2 = [1] ∧
      (vm_add_device t data).2.head? =
        some (Event.enqueued (ApiRequest.VmAddDevice data t.chanId))) ∧
    (∀ t data, t.sendFails = true →
      evtWrites (vm_remove_device t data).2 = []) ∧
    (∀ t data, t.sendFails = false →
      evtWrites (vm_remove_device t data).2 = [1] ∧
      (vm_remove_device t data).2.head? =
        some (Event.enqueued
          (ApiRequest.VmRemoveDevice data t.chanId))) ∧
    (∀ t data, t.sendFails = true →
      evtWrites (vm_add_disk t data).2 = []) ∧
    (∀ t data, t.sendFails = false →
      evtWrites (vm_add_disk t data).2 = [1] ∧
      (vm_add_disk t data).2.head? =
        some (Event.enqueued (ApiRequest.VmAddDisk data t.chanId))) ∧
    (∀ t data, t.sendFails = true →
      evtWrites (vm_add_fs t data).2 = []) ∧
    (∀ t data, t.sendFails = false →
      evtWrites (vm_add_fs t data).2 = [1] ∧
      (vm_add_fs t data).2.head? =
        some (Event.enqueued (ApiRequest.VmAddFs data t.chanId))) ∧
    (∀ t data, t.sendFails = true →
      evtWrites (vm_add_pmem t data).2 = []) ∧
    (∀ t data, t.sendFails = false →
      evtWrites (vm_add_pmem t data).2 = [1] ∧
      (vm_add_pmem t data).2.head? =
        some (Event.enqueued (ApiRequest.VmAddPmem data t.chanId))) ∧
    (∀ t data, t.sendFails = true →
      evtWrites (vm_add_net t data).2 = []) ∧
    (∀ t data, t.sendFails = false →
      evtWrites (vm_add_net t data).2 = [1] ∧
      (vm_add_net t data).2.head? =
        some (Event.enqueued (ApiRequest.VmAddNet data t.chanId))) ∧
    (∀ t data, t.sendFails = true →
      evtWrites (vm_add_vsock t data).2 = []) ∧
    (∀ t data, t.sendFails = false →
      evtWrites (vm_add_vsock t data).2 = [1] ∧
      (vm_add_vsock t data).2.head? =
        some (Event.enqueued (ApiRequest.VmAddVsock data t.chanId))) :=
  ⟨fun t config h => by
      rw [vm_create_eq_specCall]
      exact specCall_evtWrites_send_fail _ _ _ h,
   fun t config h => by
      rw [vm_create_eq_specCall]
      exact specCall_evtWrites_send_ok _ _ _ h,
   fun t action h => by
      rw [vm_action_eq_specCall]
      exact specCall_evtWrites_send_fail _ _ _ h,
   fun t action h => by
      rw [vm_action_eq_specCall]
      exact specCall_evtWrites_send_ok _ _ _ h,
   fun t h => by
      rw [vm_boot_eq_specCall]
      exact specCall_evtWrites_send_fail _ _ _ h,
   fun t h => by
      rw [vm_boot_eq_specCall]
      exact specCall_evtWrites_send_ok _ _ _ h,
   fun t h => by
      rw [vm_delete_eq_specCall]
      exact specCall_evtWrites_send_fail _ _ _ h,
   fun t h => by
      rw [vm_delete_eq_specCall]
      exact specCall_evtWrites_send_ok _ _ _ h,
   fun t h => by
      rw [vm_shutdown_eq_specCall]
      exact specCall_evtWrites_send_fail _ _ _ h,
   fun t h => by
      rw [vm_shutdown_eq_specCall]
      exact specCall_evtWrites_send_ok _ _ _ h,
   fun t h => by
      rw [vm_reboot_eq_specCall]
      exact specCall_evtWrites_send_fail _ _ _ h,
   fun t h => by
      rw [vm_reboot_eq_specCall]
      exact specCall_evtWrites_send_ok _ _ _ h,
   fun t h => by
      rw [vm_info_eq_specCall]
      exact specCall_evtWrites_send_fail _ _ _ h,
   fun t h => by
      rw [vm_info_eq_specCall]
      exact specCall_evtWrites_send_ok _ _ _ h,
   fun t h => by
      rw [vmm_ping_eq_specCall]
      exact specCall_evtWrites_send_fail _ _ _ h,
   fun t h => by
      rw [vmm_ping_eq_specCall]
      exact specCall_evtWrites_send_ok _ _ _ h,
   fun t h => by
      rw [vmm_shutdown_eq_specCall]
      exact specCall_evtWrites_send_fail _ _ _ h,
   fun t h => by
      rw [vmm_shutdown_eq_specCall]
      exact specCall_evtWrites_send_ok _ _ _ h,
   fun t data h => by
      rw [vm_add_device_eq_specCall]
      exact specCall_evtWrites_send_fail _ _ _ h,
   fun t data h => by
      rw [vm_add_device_eq_specCall]
      exact specCall_evtWrites_send_ok _ _ _ h,
   fun t data h => by
      rw [vm_remove_device_eq_specCall]
      exact specCall_evtWrites_send_fail _ _ _ h,
   fun t data h => by
      rw [vm_remove_device_eq_specCall]
      exact specCall_evtWrites_send_ok _ _ _ h,
   fun t data h => by
      rw [vm_add_disk_eq_specCall]
      exact specCall_evtWrites_send_fail _ _ _ h,
   fun t data h => by
      rw [vm_add_disk_eq_specCall]
      exact specCall_evtWrites_send_ok _ _ _ h,
   fun t data h => by
      rw [vm_add_fs_eq_specCall]
      exact specCall_evtWrites_send_fail _ _ _ h,
   fun t data h => by
      rw [vm_add_fs_eq_specCall]
      exact specCall_evtWrites_send_ok _ _ _ h,
   fun t data h => by
      rw [vm_add_pmem_eq_specCall]
      exact specCall_evtWrites_send_fail _ _ _ h,
   fun t data h => by
      rw [vm_add_pmem_eq_specCall]
      exact specCall_evtWrites_send_ok _ _ _ h,
   fun t data h => by
      rw [vm_add_net_eq_specCall]
      exact specCall_evtWrites_send_fail _ _ _ h,
   fun t data h => by
      rw [vm_add_net_eq_specCall]
      exact specCall_evtWrites_send_ok _ _ _ h,
   fun t data h => by
      rw [vm_add_vsock_eq_specCall]
      exact specCall_evtWrites_send_fail _ _ _ h,
   fun t data h => by
      rw [vm_add_vsock_eq_specCall]
      exact specCall_evtWrites_send_ok _ _ _ h⟩

/-- C9 witness: at concrete transports, a `vm_boot` whose send fails
performs no eventfd write, and one whose send succeeds (here with a
failing receive) performs exactly one write of 1, after the enqueue. -/
theorem C9_eventfd_write_discipline_witness :
    evtWrites
      (vm_boot
        ⟨2, true, Except.ok (),
         Except.ok (Except.ok ApiResponsePayload.Empty)⟩).2 = [] ∧
    evtWrites
      (vm_boot ⟨2, false, Except.ok (), Except.error ⟨⟩⟩).2 = [1] ∧
    (vm_boot ⟨2, false, Except.ok (), Except.error ⟨⟩⟩).2.head? =
      some (Event.enqueued (ApiRequest.VmBoot 2)) :=
  ⟨C9_eventfd_write_discipline.2.2.2.2.1 _ rfl,
   (C9_eventfd_write_discipline.2.2.2.2.2.1 _ rfl).1,
   (C9_eventfd_write_discipline.2.2.2.2.2.1 _ rfl).2⟩

/-- C10: every wrapper is deterministic in its observations: two
invocations with the same payload argument that observe the same
queue-send result (as `send` reports it, handing the envelope back on
failure), the same eventfd-write result and the same received response
return the same result, even when their private reply channels differ;
no other transport state influences the returned value. -/
theorem C10_transport_determinism :
    (∀ t t2 config,
      sendObsOf t (ApiRequest.VmCreate config t.chanId) =
        sendObsOf t2 (ApiRequest.VmCreate config t2.chanId) →
      t.evtResult = t2.evtResult → t.recvResult = t2.recvResult →
      (vm_create t config).1 = (vm_create t2 config).1) ∧
    (∀ t t2 action,
      sendObsOf t (actionRequest action t.chanId) =
        sendObsOf t2 (actionRequest action t2.chanId) →
      t.evtResult = t2.evtResult → t.recvResult = t2.recvResult →
      (vm_action t action).1 = (vm_action t2 action).1) ∧
    (∀ t t2,
      sendObsOf t (ApiRequest.VmBoot t.chanId) =
        sendObsOf t2 (ApiRequest.VmBoot t2.chanId) →
      t.evtResult = t2.evtResult → t.recvResult = t2.recvResult →
      (vm_boot t).1 = (vm_boot t2).1) ∧
    (∀ t t2,
      sendObsOf t (ApiRequest.VmDelete t.chanId) =
        sendObsOf t2 (ApiRequest.VmDelete t2.chanId) →
      t.evtResult = t2.evtResult → t.recvResult = t2.recvResult →
      (vm_delete t).1 = (vm_delete t2).1) ∧
    (∀ t t2,
      sendObsOf t (ApiRequest.VmShutdown t.chanId) =
        sendObsOf t2 (ApiRequest.VmShutdown t2.chanId) →
      t.evtResult = t2.evtResult → t.recvResult = t2.recvResult →
      (vm_shutdown t).1 = (vm_shutdown t2).1) ∧
    (∀ t t2,
      sendObsOf t (ApiRequest.VmReboot t.chanId) =
        sendObsOf t2 (ApiRequest.VmReboot t2.chanId) →
      t.evtResult = t2.evtResult → t.recvResult = t2.recvResult →
      (vm_reboot t).1 = (vm_reboot t2).1) ∧
    (∀ t t2,
      sendObsOf t (ApiRequest.VmInfo t.chanId) =
        sendObsOf t2 (ApiRequest.VmInfo t2.chanId) →
      t.evtResult = t2.evtResult → t.recvResult = t2.recvResult →
      (vm_info t).1 = (vm_info t2).1) ∧
    (∀ t t2,
      sendObsOf t (ApiRequest.VmmPing t.chanId) =
        sendObsOf t2 (ApiRequest.VmmPing t2.chanId) →
      t.evtResult = t2.evtResult → t.recvResult = t2.recvResult →
      (vmm_ping t).1 = (vmm_ping t2).1) ∧
    (∀ t t2,
      sendObsOf t (ApiRequest.VmmShutdown t.chanId) =
        sendObsOf t2 (ApiRequest.VmmShutdown t2.chanId) →
      t.evtResult = t2.evtResult → t.recvResult = t2.recvResult →
      (vmm_shutdown t).1 = (vmm_shutdown t2).1) ∧
    (∀ t t2 data,
      sendObsOf t (ApiRequest.VmAddDevice data t.chanId) =
        sendObsOf t2 (ApiRequest.VmAddDevice data t2.chanId) →
      t.evtResult = t2.evtResult → t.recvResult = t2.recvResult →
      (vm_add_device t data).1 = (vm_add_device t2 data).1) ∧
    (∀ t t2 data,
      sendObsOf t (ApiRequest.VmRemoveDevice data t.chanId) =
        sendObsOf t2 (ApiRequest.VmRemoveDevice data t2.chanId) →
      t.evtResult = t2.evtResult → t.recvResult = t2.recvResult →
      (vm_remove_device t data).1 = (vm_remove_device t2 data).1) ∧
    (∀ t t2 data,
      sendObsOf t (ApiRequest.VmAddDisk data t.chanId) =
        sendObsOf t2 (ApiRequest.VmAddDisk data t2.chanId) →
      t.evtResult = t2.evtResult → t.recvResult = t2.recvResult →
      (vm_add_disk t data).1 = (vm_add_disk t2 data).1) ∧
    (∀ t t2 data,
      sendObsOf t (ApiRequest.VmAddFs data t.chanId) =
        sendObsOf t2 (ApiRequest.VmAddFs data t2.chanId) →
      t.evtResult = t2.evtResult → t.recvResult = t2.recvResult →
      (vm_add_fs t data).1 = (vm_add_fs t2 data).1) ∧
    (∀ t t2 data,
      sendObsOf t (ApiRequest.VmAddPmem data t.chanId) =
        sendObsOf t2 (ApiRequest.VmAddPmem data t2.chanId) →
      t.evtResult = t2.evtResult → t.recvResult = t2.recvResult →
      (vm_add_pmem t data).1 = (vm_add_pmem t2 data).1) ∧
    (∀ t t2 data,
      sendObsOf t (ApiRequest.VmAddNet data t.chanId) =
        sendObsOf t2 (ApiRequest.VmAddNet data t2.chanId) →
      t.evtResult = t2.evtResult → t.recvResult = t2.recvResult →
      (vm_add_net t data).1 = (vm_add_net t2 data).1) ∧
    (∀ t t2 data,
      sendObsOf t (ApiRequest.VmAddVsock data t.chanId) =
        sendObsOf t2 (ApiRequest.VmAddVsock data t2.chanId) →
      t.evtResult = t2.evtResult → t.recvResult = t2.recvResult →
      (vm_add_vsock t data).1 = (vm_add_vsock t2 data).1) :=
  ⟨fun t t2 config hs he hr => by
      rw [vm_create_eq_specCall t config, vm_create_eq_specCall t2 config]
      exact specCall_fst_deterministic _ _ _ _ hs he hr,
   fun t t2 action hs he hr => by
      rw [vm_action_eq_specCall t action, vm_action_eq_specCall t2 action]
      exact specCall_fst_deterministic _ _ _ _ hs he hr,
   fun t t2 hs he hr => by
      rw [vm_boot_eq_specCall t, vm_boot_eq_specCall t2]
      exact specCall_fst_deterministic _ _ _ _ hs he hr,
   fun t t2 hs he hr => by
      rw [vm_delete_eq_specCall t, vm_delete_eq_specCall t2]
      exact specCall_fst_deterministic _ _ _ _ hs he hr,
   fun t t2 hs he hr => by
      rw [vm_shutdown_eq_specCall t, vm_shutdown_eq_specCall t2]
      exact specCall_fst_deterministic _ _ _ _ hs he hr,
   fun t t2 hs he hr => by
      rw [vm_reboot_eq_specCall t, vm_reboot_eq_specCall t2]
      exact specCall_fst_deterministic _ _ _ _ hs he hr,
   fun t t2 hs he hr => by
      rw [vm_info_eq_specCall t, vm_info_eq_specCall t2]
      exact specCall_fst_deterministic _ _ _ _ hs he hr,
   fun t t2 hs he hr => by
      rw [vmm_ping_eq_specCall t, vmm_ping_eq_specCall t2]
      exact specCall_fst_deterministic _ _ _ _ hs he hr,
   fun t t2 hs he hr => by
      rw [vmm_shutdown_eq_specCall t, vmm_shutdown_eq_specCall t2]
      exact specCall_fst_deterministic _ _ _ _ hs he hr,
   fun t t2 data hs he hr => by
      rw [vm_add_device_eq_specCall t data,
          vm_add_device_eq_specCall t2 data]
      exact specCall_fst_deterministic _ _ _ _ hs he hr,
   fun t t2 data hs he hr => by
      rw [vm_remove_device_eq_specCall t data,
          vm_remove_device_eq_specCall t2 data]
      exact specCall_fst_deterministic _ _ _ _ hs he hr,
   fun t t2 data hs he hr => by
      rw [vm_add_disk_eq_specCall t data, vm_add_disk_eq_specCall t2 data]
      exact specCall_fst_deterministic _ _ _ _ hs he hr,
   fun t t2 data hs he hr => by
      rw [vm_add_fs_eq_specCall t data, vm_add_fs_eq_specCall t2 data]
      exact specCall_fst_deterministic _ _ _ _ hs he hr,
   fun t t2 data hs he hr => by
      rw [vm_add_pmem_eq_specCall t data, vm_add_pmem_eq_specCall t2 data]
      exact specCall_fst_deterministic _ _ _ _ hs he hr,
   fun t t2 data hs he hr => by
      rw [vm_add_net_eq_specCall t data, vm_add_net_eq_specCall t2 data]
      exact specCall_fst_deterministic _ _ _ _ hs he hr,
   fun t t2 data hs he hr => by
      rw [vm_add_vsock_eq_specCall t data,
          vm_add_vsock_eq_specCall t2 data]
      exact specCall_fst_deterministic _ _ _ _ hs he hr⟩

/-- C10 witness: two `vm_create` invocations with the same payload and
the same transport observations but different private reply channels (1
and 9) return the same result. -/
theorem C10_transport_determinism_witness :
    (vm_create
        ⟨1, false, Except.ok (),
         Except.ok (Except.ok ApiResponsePayload.Empty)⟩ ⟨2⟩).1 =
    (vm_create
        ⟨9, false, Except.ok (),
         Except.ok (Except.ok ApiResponsePayload.Empty)⟩ ⟨2⟩).1 :=
  C10_transport_determinism.1 _ _ _ rfl rfl rfl

end ChOxidase
